import Mathlib

/-!
Shallow embedding of the global-identity-blockchain core:
the `GlobalIdentityRegistry` contract (identity lifecycle, attestation
ledger, guardian-based social recovery, pause gate) and the
`PlatformVerificationRegistry` contract (platform registration,
cross-platform verification with expiration and trust scores).

Solidity mappings are embedded as total functions with the zero/default
value of the codomain (matching EVM storage semantics); `bytes32` values
are embedded symbolically, with keccak256 applications represented by
injective constructors (the standard symbolic model of a
collision-resistant hash); `address` is a natural number, 0 standing for
the zero address; `block.timestamp` and `msg.sender` are explicit
arguments of every operation.  Each external state-mutating function
becomes a Lean function `State → ... → Except Err State`; a revert is an
`Except.error` and leaves the caller-visible state unchanged via `regStep`.
-/

/-- An EVM address; 0 is the zero address. -/
abbrev Addr := Nat

/-- Symbolic `bytes32` values.  `hashIdC h a t` stands for
`keccak256(abi.encodePacked(h, a, t))` as computed in `createIdentity`;
`hashPlat n d t` stands for `keccak256(abi.encodePacked(n, d, t))` as
computed in `registerPlatform`; `raw n` is an arbitrary caller-supplied
word; `zero` is `bytes32(0)`.  Distinctness of constructors encodes
collision resistance of keccak256. -/
inductive B32 where
  | zero : B32
  | hashIdC (idHash : B32) (sender : Addr) (time : Nat) : B32
  | hashPlat (name : String) (domain : String) (time : Nat) : B32
  | raw (n : Nat) : B32
deriving DecidableEq, Repr

/-- Typed revert reasons, one per `require` / modifier failure in the two
contracts (the string messages of the source mapped to constructors). -/
inductive Err where
  | SystemPaused
  | AlreadyPaused
  | NotPaused
  | DuplicateIdentityHash
  | PrincipalAlreadyBound
  | NotOwner
  | IdentityInactive
  | IdentityRevoked
  | NotAuthorizedVerifier
  | InvalidVerificationType
  | IndexOutOfRange
  | NotVerificationOwner
  | NotAuthorized
  | AlreadyRevoked
  | InvalidGuardian
  | GuardianSelf
  | NotGuardian
  | InvalidNewOwner
  | RecoveryAlreadyPending
  | NoRecoveryPending
  | AlreadyApproved
  | Unauthorized
  | EmptyName
  | EmptyDomain
  | DomainAlreadyRegistered
  | PlatformNotActive
  | EmptyPlatformUserId
  | InvalidIdentityDID
  | VerificationAlreadyExists
  | VerificationNotActive
  | TrustScoreOutOfRange
deriving DecidableEq, Repr

/-- The access-control roles appearing in the two contracts. -/
inductive Role where
  | defaultAdmin
  | admin
  | verifier
  | issuer
  | platformAdmin
deriving DecidableEq, Repr

/-- Pointwise update of a mapping (Solidity storage write `f[k] = v`). -/
def fupd {α β : Type} [DecidableEq α] (f : α → β) (k : α) (v : β) : α → β :=
  fun x => if x = k then v else f x

theorem fupd_same {α β : Type} [DecidableEq α] (f : α → β) (k : α) (v : β) :
    fupd f k v k = v := by
  simp [fupd]

theorem fupd_other {α β : Type} [DecidableEq α] (f : α → β) (k x : α) (v : β)
    (h : x ≠ k) : fupd f k v x = f x := by
  simp [fupd, h]

namespace GIR

/-- The `Identity` struct of `GlobalIdentityRegistry`; the default values
are the EVM zero-initialised storage slot. -/
structure Identity where
  identityHash : B32 := B32.zero
  owner : Addr := 0
  createdAt : Nat := 0
  lastUpdated : Nat := 0
  isActive : Bool := false
  isRevoked : Bool := false
  ipfsHash : String := ""
  verificationLevel : Nat := 0
deriving DecidableEq, Repr

/-- The `Verification` struct (one attestation record). -/
structure Verification where
  verifier : Addr
  timestamp : Nat
  verificationType : Nat
  proofHash : B32
  isValid : Bool
deriving DecidableEq, Repr

/-- The full storage of `GlobalIdentityRegistry`. -/
structure RegState where
  identities : B32 → Identity
  addressToIdentity : Addr → B32
  verifications : B32 → List Verification
  identityHashExists : B32 → Bool
  guardians : B32 → List Addr
  recoveryApprovals : B32 → Addr → Bool
  pendingRecoveryAddress : B32 → Addr
  recoveryApprovalCount : B32 → Nat
  totalIdentities : Nat
  totalVerifications : Nat
  paused : Bool
  roles : Role → Addr → Bool

/-- `hasRole` of AccessControl. -/
def hasRole (s : RegState) (r : Role) (a : Addr) : Bool :=
  s.roles r a

/-- The constructor: the deployer receives `DEFAULT_ADMIN_ROLE` and
`ADMIN_ROLE`; everything else is zero-initialised. -/
def regInit (deployer : Addr) : RegState where
  identities := fun _ => {}
  addressToIdentity := fun _ => B32.zero
  verifications := fun _ => []
  identityHashExists := fun _ => false
  guardians := fun _ => []
  recoveryApprovals := fun _ _ => false
  pendingRecoveryAddress := fun _ => 0
  recoveryApprovalCount := fun _ => 0
  totalIdentities := 0
  totalVerifications := 0
  paused := false
  roles := fun r a =>
    decide ((r = Role.defaultAdmin ∨ r = Role.admin) ∧ a = deployer)

/-- `createIdentity(_identityHash, _ipfsHash)` with modifiers
`whenNotPaused nonReentrant` (the reentrancy guard is a no-op in this
sequential model).  Returns the updated state; the returned DID is
`B32.hashIdC idHash sender time`, recomputable from the arguments. -/
def createIdentity (s : RegState) (sender : Addr) (time : Nat)
    (idHash : B32) (ipfs : String) : Except Err RegState :=
  if s.paused then .error .SystemPaused
  else if s.identityHashExists idHash then .error .DuplicateIdentityHash
  else if s.addressToIdentity sender ≠ B32.zero then .error .PrincipalAlreadyBound
  else
    let did := B32.hashIdC idHash sender time
    .ok { s with
      identities := fupd s.identities did
        { identityHash := idHash
          owner := sender
          createdAt := time
          lastUpdated := time
          isActive := true
          isRevoked := false
          ipfsHash := ipfs
          verificationLevel := 0 }
      identityHashExists := fupd s.identityHashExists idHash true
      addressToIdentity := fupd s.addressToIdentity sender did
      totalIdentities := s.totalIdentities + 1 }

/-- `updateIdentity(_did, _newIpfsHash)` with modifier `whenNotPaused`. -/
def updateIdentity (s : RegState) (sender : Addr) (time : Nat)
    (did : B32) (newIpfs : String) : Except Err RegState :=
  if s.paused then .error .SystemPaused
  else if (s.identities did).owner ≠ sender then .error .NotOwner
  else if ¬ (s.identities did).isActive then .error .IdentityInactive
  else if (s.identities did).isRevoked then .error .IdentityRevoked
  else .ok { s with
    identities := fupd s.identities did
      { s.identities did with ipfsHash := newIpfs, lastUpdated := time } }

/-- `addVerification(_did, _verificationType, _proofHash)` with modifiers
`whenNotPaused onlyRole(VERIFIER_ROLE)`; appends a record and raises
`verificationLevel` to the new type if it is larger. -/
def addVerification (s : RegState) (sender : Addr) (time : Nat)
    (did : B32) (vtype : Nat) (proof : B32) : Except Err RegState :=
  if s.paused then .error .SystemPaused
  else if ¬ hasRole s .verifier sender then .error .NotAuthorizedVerifier
  else if ¬ (s.identities did).isActive then .error .IdentityInactive
  else if (s.identities did).isRevoked then .error .IdentityRevoked
  else if ¬ (1 ≤ vtype ∧ vtype ≤ 4) then .error .InvalidVerificationType
  else .ok { s with
    verifications := fupd s.verifications did
      (s.verifications did ++
        [{ verifier := sender
           timestamp := time
           verificationType := vtype
           proofHash := proof
           isValid := true }])
    identities :=
      if vtype > (s.identities did).verificationLevel then
        fupd s.identities did
          { s.identities did with verificationLevel := vtype }
      else s.identities
    totalVerifications := s.totalVerifications + 1 }

/-- `revokeVerification(_did, _verificationIndex)` with modifier
`onlyRole(VERIFIER_ROLE)` (note: NOT `whenNotPaused` in the source);
flips `isValid` of the indexed record to false, touching nothing else. -/
def revokeVerification (s : RegState) (sender : Addr)
    (did : B32) (idx : Nat) : Except Err RegState :=
  if ¬ hasRole s .verifier sender then .error .NotAuthorizedVerifier
  else if h : idx < (s.verifications did).length then
    let v := (s.verifications did).get ⟨idx, h⟩
    if v.verifier ≠ sender then .error .NotVerificationOwner
    else .ok { s with
      verifications := fupd s.verifications did
        ((s.verifications did).set idx { v with isValid := false }) }
  else .error .IndexOutOfRange

/-- `revokeIdentity(_did)`: owner or `ADMIN_ROLE`; terminal; sets both
lifecycle flags.  No pause modifier in the source. -/
def revokeIdentity (s : RegState) (sender : Addr) (time : Nat)
    (did : B32) : Except Err RegState :=
  if ¬ ((s.identities did).owner = sender ∨ hasRole s .admin sender) then
    .error .NotAuthorized
  else if (s.identities did).isRevoked then .error .AlreadyRevoked
  else .ok { s with
    identities := fupd s.identities did
      { s.identities did with
        isRevoked := true
        isActive := false
        lastUpdated := time } }

/-- `addGuardian(_did, _guardian)`: owner-only, no zero or self guardian;
appends to the guardian list (duplicates are not rejected by the source).
No pause modifier in the source. -/
def addGuardian (s : RegState) (sender : Addr) (did : B32)
    (g : Addr) : Except Err RegState :=
  if (s.identities did).owner ≠ sender then .error .NotOwner
  else if g = 0 then .error .InvalidGuardian
  else if g = sender then .error .GuardianSelf
  else .ok { s with guardians := fupd s.guardians did (s.guardians did ++ [g]) }

/-- `_isGuardian(_did, _address)`: the source's linear scan, denoted as
list membership. -/
def isGuardian (s : RegState) (did : B32) (a : Addr) : Bool :=
  decide (a ∈ s.guardians did)

/-- `initiateRecovery(_did, _newOwner)`: guardian-only; creates the
pending request with the initiator's approval pre-counted as 1.  No pause
modifier in the source. -/
def initiateRecovery (s : RegState) (sender : Addr) (did : B32)
    (newOwner : Addr) : Except Err RegState :=
  if ¬ isGuardian s did sender then .error .NotGuardian
  else if newOwner = 0 then .error .InvalidNewOwner
  else if s.pendingRecoveryAddress did ≠ 0 then .error .RecoveryAlreadyPending
  else .ok { s with
    pendingRecoveryAddress := fupd s.pendingRecoveryAddress did newOwner
    recoveryApprovals := fupd s.recoveryApprovals did
      (fupd (s.recoveryApprovals did) sender true)
    recoveryApprovalCount := fupd s.recoveryApprovalCount did 1 }

/-- `_executeRecovery(_did)`: transfers ownership to the proposed owner,
rebinds `addressToIdentity` (delete old owner's binding, then install the
new one), clears the pending request and the approval count, and deletes
the approval flag of every guardian in the current list. -/
def executeRecovery (s : RegState) (time : Nat) (did : B32) : RegState :=
  let oldOwner := (s.identities did).owner
  let newOwner := s.pendingRecoveryAddress did
  { s with
    identities := fupd s.identities did
      { s.identities did with owner := newOwner, lastUpdated := time }
    addressToIdentity :=
      fupd (fupd s.addressToIdentity oldOwner B32.zero) newOwner did
    pendingRecoveryAddress := fupd s.pendingRecoveryAddress did 0
    recoveryApprovalCount := fupd s.recoveryApprovalCount did 0
    recoveryApprovals := fupd s.recoveryApprovals did
      (fun a => if a ∈ s.guardians did then false else s.recoveryApprovals did a) }

/-- `approveRecovery(_did)`: guardian-only, one approval per guardian;
after incrementing the count, if it reaches
`guardians[_did].length / 2 + 1` (evaluated on the CURRENT guardian
list), `_executeRecovery` runs inside the same operation.  No pause
modifier in the source. -/
def approveRecovery (s : RegState) (sender : Addr) (time : Nat)
    (did : B32) : Except Err RegState :=
  if ¬ isGuardian s did sender then .error .NotGuardian
  else if s.pendingRecoveryAddress did = 0 then .error .NoRecoveryPending
  else if s.recoveryApprovals did sender then .error .AlreadyApproved
  else
    let s1 : RegState := { s with
      recoveryApprovals := fupd s.recoveryApprovals did
        (fupd (s.recoveryApprovals did) sender true)
      recoveryApprovalCount := fupd s.recoveryApprovalCount did
        (s.recoveryApprovalCount did + 1) }
    let required := (s1.guardians did).length / 2 + 1
    if s1.recoveryApprovalCount did ≥ required then
      .ok (executeRecovery s1 time did)
    else .ok s1

/-- `verifyOwnership(_did, _owner)`: the source's three-way AND. -/
def verifyOwnership (s : RegState) (did : B32) (p : Addr) : Bool :=
  (s.identities did).owner == p &&
  (s.identities did).isActive &&
  !(s.identities did).isRevoked

/-- `getVerificationCount(_did)`. -/
def getVerificationCount (s : RegState) (did : B32) : Nat :=
  (s.verifications did).length

/-- `getGuardians(_did)`. -/
def getGuardians (s : RegState) (did : B32) : List Addr :=
  s.guardians did

/-- `pause()`: `onlyRole(ADMIN_ROLE)`, then OpenZeppelin `_pause`
(which itself requires the gate not to be engaged yet). -/
def pauseFn (s : RegState) (sender : Addr) : Except Err RegState :=
  if ¬ hasRole s .admin sender then .error .Unauthorized
  else if s.paused then .error .AlreadyPaused
  else .ok { s with paused := true }

/-- `unpause()`: `onlyRole(ADMIN_ROLE)`, then OpenZeppelin `_unpause`. -/
def unpauseFn (s : RegState) (sender : Addr) : Except Err RegState :=
  if ¬ hasRole s .admin sender then .error .Unauthorized
  else if ¬ s.paused then .error .NotPaused
  else .ok { s with paused := false }

/-- AccessControl `grantRole`: only the role's admin (here always
`DEFAULT_ADMIN_ROLE`) may grant. -/
def grantRoleFn (s : RegState) (sender : Addr) (r : Role)
    (a : Addr) : Except Err RegState :=
  if ¬ hasRole s .defaultAdmin sender then .error .Unauthorized
  else .ok { s with roles := fupd2 s.roles r a true }
where
  fupd2 (f : Role → Addr → Bool) (r : Role) (a : Addr) (v : Bool) :
      Role → Addr → Bool :=
    fupd f r (fupd (f r) a v)

/-- AccessControl `revokeRole`. -/
def revokeRoleFn (s : RegState) (sender : Addr) (r : Role)
    (a : Addr) : Except Err RegState :=
  if ¬ hasRole s .defaultAdmin sender then .error .Unauthorized
  else .ok { s with roles := fupd s.roles r (fupd (s.roles r) a false) }

/-- One submitted transaction against `GlobalIdentityRegistry`:
the entry point plus `msg.sender` and, where read, `block.timestamp`. -/
inductive RegOp where
  | createIdentity (sender : Addr) (time : Nat) (idHash : B32) (ipfs : String)
  | updateIdentity (sender : Addr) (time : Nat) (did : B32) (ipfs : String)
  | addVerification (sender : Addr) (time : Nat) (did : B32) (vtype : Nat) (proof : B32)
  | revokeVerification (sender : Addr) (did : B32) (idx : Nat)
  | revokeIdentity (sender : Addr) (time : Nat) (did : B32)
  | addGuardian (sender : Addr) (did : B32) (g : Addr)
  | initiateRecovery (sender : Addr) (did : B32) (newOwner : Addr)
  | approveRecovery (sender : Addr) (time : Nat) (did : B32)
  | pauseOp (sender : Addr)
  | unpauseOp (sender : Addr)
  | grantRole (sender : Addr) (r : Role) (a : Addr)
  | revokeRole (sender : Addr) (r : Role) (a : Addr)
deriving DecidableEq, Repr

/-- Dispatch one transaction. -/
def regExec (s : RegState) : RegOp → Except Err RegState
  | .createIdentity sender time idHash ipfs => createIdentity s sender time idHash ipfs
  | .updateIdentity sender time did ipfs => updateIdentity s sender time did ipfs
  | .addVerification sender time did vtype proof => addVerification s sender time did vtype proof
  | .revokeVerification sender did idx => revokeVerification s sender did idx
  | .revokeIdentity sender time did => revokeIdentity s sender time did
  | .addGuardian sender did g => addGuardian s sender did g
  | .initiateRecovery sender did newOwner => initiateRecovery s sender did newOwner
  | .approveRecovery sender time did => approveRecovery s sender time did
  | .pauseOp sender => pauseFn s sender
  | .unpauseOp sender => unpauseFn s sender
  | .grantRole sender r a => grantRoleFn s sender r a
  | .revokeRole sender r a => revokeRoleFn s sender r a

/-- A reverted transaction leaves the state unchanged. -/
def regStep (s : RegState) (op : RegOp) : RegState :=
  match regExec s op with
  | .ok s' => s'
  | .error _ => s

/-- The state after a list of submitted transactions, starting from a
fresh deployment. -/
def regRun (deployer : Addr) (ops : List RegOp) : RegState :=
  ops.foldl regStep (regInit deployer)

/-- `msg.sender` of a transaction. -/
def RegOp.sender : RegOp → Addr
  | .createIdentity a .. => a
  | .updateIdentity a .. => a
  | .addVerification a .. => a
  | .revokeVerification a .. => a
  | .revokeIdentity a .. => a
  | .addGuardian a .. => a
  | .initiateRecovery a .. => a
  | .approveRecovery a .. => a
  | .pauseOp a => a
  | .unpauseOp a => a
  | .grantRole a .. => a
  | .revokeRole a .. => a

end GIR

namespace PVR

/-- The `Platform` struct of `PlatformVerificationRegistry`; defaults are
the zero-initialised storage slot (`platformType` is the enum as a
number). -/
structure Platform where
  name : String := ""
  domain : String := ""
  adminAddress : Addr := 0
  isActive : Bool := false
  registeredAt : Nat := 0
  totalVerifications : Nat := 0
  platformType : Nat := 0
deriving DecidableEq, Repr

/-- The `PlatformVerification` struct (one identity-platform record). -/
structure PlatformVerification where
  identityDID : B32 := B32.zero
  platformId : B32 := B32.zero
  platformUserId : String := ""
  verifiedAt : Nat := 0
  expiresAt : Nat := 0
  isActive : Bool := false
  trustScore : Nat := 0
  attestationHash : B32 := B32.zero
deriving DecidableEq, Repr

/-- The full storage of `PlatformVerificationRegistry`.  Note: this
contract does not inherit `Pausable`; it has no pause flag at all. -/
structure PlatState where
  platforms : B32 → Platform
  domainToPlatform : String → B32
  verifications : B32 → B32 → PlatformVerification
  platformVerifiedIdentities : B32 → List B32
  platformUserToIdentity : B32 → String → B32
  totalPlatforms : Nat
  totalPlatformVerifications : Nat
  roles : Role → Addr → Bool

/-- The constructor: the deployer receives `DEFAULT_ADMIN_ROLE` and
`PLATFORM_ADMIN_ROLE`. -/
def pInit (deployer : Addr) : PlatState where
  platforms := fun _ => {}
  domainToPlatform := fun _ => B32.zero
  verifications := fun _ _ => {}
  platformVerifiedIdentities := fun _ => []
  platformUserToIdentity := fun _ _ => B32.zero
  totalPlatforms := 0
  totalPlatformVerifications := 0
  roles := fun r a =>
    decide ((r = Role.defaultAdmin ∨ r = Role.platformAdmin) ∧ a = deployer)

/-- `hasRole` on the platform contract. -/
def pHasRole (s : PlatState) (r : Role) (a : Addr) : Bool :=
  s.roles r a

/-- `registerPlatform(_name, _domain, _platformType)` with modifier
`onlyRole(PLATFORM_ADMIN_ROLE)`. -/
def registerPlatform (s : PlatState) (sender : Addr) (time : Nat)
    (name : String) (domain : String) (ptype : Nat) : Except Err PlatState :=
  if ¬ pHasRole s .platformAdmin sender then .error .Unauthorized
  else if name = "" then .error .EmptyName
  else if domain = "" then .error .EmptyDomain
  else if s.domainToPlatform domain ≠ B32.zero then .error .DomainAlreadyRegistered
  else
    let pid := B32.hashPlat name domain time
    .ok { s with
      platforms := fupd s.platforms pid
        { name := name
          domain := domain
          adminAddress := sender
          isActive := true
          registeredAt := time
          totalVerifications := 0
          platformType := ptype }
      domainToPlatform := fupd s.domainToPlatform domain pid
      totalPlatforms := s.totalPlatforms + 1 }

/-- `createVerification(_identityDID, _platformId, _platformUserId,
_expirationDays, _attestationHash)` (modifier `nonReentrant` is a no-op
here): requires the platform active, the caller the platform's admin or a
`PLATFORM_ADMIN_ROLE` holder, a nonempty platform user id, a nonzero DID,
and no active record for the pair; inserts the record with the default
trust score 50 and `expiresAt = time + days*86400` (0 meaning never). -/
def createVerification (s : PlatState) (sender : Addr) (time : Nat)
    (did : B32) (pid : B32) (uid : String) (expDays : Nat)
    (att : B32) : Except Err PlatState :=
  if ¬ (s.platforms pid).isActive then .error .PlatformNotActive
  else if ¬ ((s.platforms pid).adminAddress = sender ∨
             pHasRole s .platformAdmin sender) then .error .Unauthorized
  else if uid = "" then .error .EmptyPlatformUserId
  else if did = B32.zero then .error .InvalidIdentityDID
  else if (s.verifications did pid).isActive then .error .VerificationAlreadyExists
  else
    let expiresAt := if expDays > 0 then time + expDays * 86400 else 0
    .ok { s with
      verifications := fupd s.verifications did
        (fupd (s.verifications did) pid
          { identityDID := did
            platformId := pid
            platformUserId := uid
            verifiedAt := time
            expiresAt := expiresAt
            isActive := true
            trustScore := 50
            attestationHash := att })
      platformVerifiedIdentities := fupd s.platformVerifiedIdentities pid
        (s.platformVerifiedIdentities pid ++ [did])
      platformUserToIdentity := fupd s.platformUserToIdentity pid
        (fupd (s.platformUserToIdentity pid) uid did)
      platforms := fupd s.platforms pid
        { s.platforms pid with
          totalVerifications := (s.platforms pid).totalVerifications + 1 }
      totalPlatformVerifications := s.totalPlatformVerifications + 1 }

/-- `revokeVerification(_identityDID, _platformId)`: platform admin or
role holder; flips `isActive` of the record to false. -/
def revokeVerification (s : PlatState) (sender : Addr)
    (did : B32) (pid : B32) : Except Err PlatState :=
  if ¬ ((s.platforms pid).adminAddress = sender ∨
        pHasRole s .platformAdmin sender) then .error .Unauthorized
  else if ¬ (s.verifications did pid).isActive then .error .VerificationNotActive
  else .ok { s with
    verifications := fupd s.verifications did
      (fupd (s.verifications did) pid
        { s.verifications did pid with isActive := false }) }

/-- `updateTrustScore(_identityDID, _platformId, _newScore)`. -/
def updateTrustScore (s : PlatState) (sender : Addr)
    (did : B32) (pid : B32) (score : Nat) : Except Err PlatState :=
  if ¬ ((s.platforms pid).adminAddress = sender ∨
        pHasRole s .platformAdmin sender) then .error .Unauthorized
  else if score > 100 then .error .TrustScoreOutOfRange
  else if ¬ (s.verifications did pid).isActive then .error .VerificationNotActive
  else .ok { s with
    verifications := fupd s.verifications did
      (fupd (s.verifications did) pid
        { s.verifications did pid with trustScore := score }) }

/-- `deactivatePlatform(_platformId)`: platform admin or role holder;
sets `isActive := false` and nothing else. -/
def deactivatePlatform (s : PlatState) (sender : Addr)
    (pid : B32) : Except Err PlatState :=
  if ¬ ((s.platforms pid).adminAddress = sender ∨
        pHasRole s .platformAdmin sender) then .error .Unauthorized
  else .ok { s with
    platforms := fupd s.platforms pid
      { s.platforms pid with isActive := false } }

/-- AccessControl `grantRole` on the platform contract. -/
def pGrantRole (s : PlatState) (sender : Addr) (r : Role)
    (a : Addr) : Except Err PlatState :=
  if ¬ pHasRole s .defaultAdmin sender then .error .Unauthorized
  else .ok { s with roles := fupd s.roles r (fupd (s.roles r) a true) }

/-- `isVerificationValid(_identityDID, _platformId)`: active and not past
the expiry (0 meaning no expiry); `now` is `block.timestamp` at query
time. -/
def isVerificationValid (s : PlatState) (now : Nat)
    (did : B32) (pid : B32) : Bool :=
  let v := s.verifications did pid
  if ¬ v.isActive then false
  else if v.expiresAt > 0 ∧ now > v.expiresAt then false
  else true

/-- `getIdentityByPlatformUser(_platformId, _platformUserId)`. -/
def getIdentityByPlatformUser (s : PlatState) (pid : B32)
    (uid : String) : B32 :=
  s.platformUserToIdentity pid uid

/-- `batchVerificationCheck(_identityDIDs, _platformId)`: the source's
loop filling `results[i]` from the i-th DID, embedded as a map over the
input list. -/
def batchVerificationCheck (s : PlatState) (now : Nat)
    (ids : List B32) (pid : B32) : List Bool :=
  ids.map (fun i =>
    let v := s.verifications i pid
    let isValid := v.isActive
    if v.expiresAt > 0 ∧ now > v.expiresAt then false else isValid)

/-- One submitted transaction against `PlatformVerificationRegistry`. -/
inductive PlatOp where
  | registerPlatform (sender : Addr) (time : Nat) (name : String) (domain : String) (ptype : Nat)
  | createVerification (sender : Addr) (time : Nat) (did : B32) (pid : B32) (uid : String) (expDays : Nat) (att : B32)
  | revokeVerification (sender : Addr) (did : B32) (pid : B32)
  | updateTrustScore (sender : Addr) (did : B32) (pid : B32) (score : Nat)
  | deactivatePlatform (sender : Addr) (pid : B32)
  | grantRole (sender : Addr) (r : Role) (a : Addr)
deriving DecidableEq, Repr

/-- Dispatch one platform transaction. -/
def pExec (s : PlatState) : PlatOp → Except Err PlatState
  | .registerPlatform sender time name domain ptype => registerPlatform s sender time name domain ptype
  | .createVerification sender time did pid uid expDays att => createVerification s sender time did pid uid expDays att
  | .revokeVerification sender did pid => revokeVerification s sender did pid
  | .updateTrustScore sender did pid score => updateTrustScore s sender did pid score
  | .deactivatePlatform sender pid => deactivatePlatform s sender pid
  | .grantRole sender r a => pGrantRole s sender r a

/-- A reverted platform transaction leaves the state unchanged. -/
def pStep (s : PlatState) (op : PlatOp) : PlatState :=
  match pExec s op with
  | .ok s' => s'
  | .error _ => s

/-- The platform state after a list of transactions from deployment. -/
def pRun (deployer : Addr) (ops : List PlatOp) : PlatState :=
  ops.foldl pStep (pInit deployer)

end PVR

/-- The two deployed contracts side by side (the "system" of the spec). -/
structure SysState where
  reg : GIR.RegState
  plat : PVR.PlatState

/-- A transaction against either component. -/
inductive SysOp where
  | reg (op : GIR.RegOp)
  | plat (op : PVR.PlatOp)

/-- Dispatch a system transaction to its component. -/
def sysExec (s : SysState) : SysOp → Except Err SysState
  | .reg op => (GIR.regExec s.reg op).map (fun r => { s with reg := r })
  | .plat op => (PVR.pExec s.plat op).map (fun p => { s with plat := p })

/-- Force the pause flag (the only pause flag in the system is the
identity registry's) to a given value. -/
def setPausedS (s : SysState) (b : Bool) : SysState :=
  { s with reg := { s.reg with paused := b } }

/-- The state-mutating entry points that carry `whenNotPaused` in the
source: exactly `createIdentity`, `updateIdentity`, `addVerification` of
the identity registry. -/
def isGatedOp : SysOp → Bool
  | .reg (.createIdentity ..) => true
  | .reg (.updateIdentity ..) => true
  | .reg (.addVerification ..) => true
  | _ => false

/-- The remaining state-mutating entry points named by the specification:
none of them carries a pause check in the source. -/
def isUngatedMutating : SysOp → Bool
  | .reg (.revokeVerification ..) => true
  | .reg (.revokeIdentity ..) => true
  | .reg (.addGuardian ..) => true
  | .reg (.initiateRecovery ..) => true
  | .reg (.approveRecovery ..) => true
  | .plat (.registerPlatform ..) => true
  | .plat (.createVerification ..) => true
  | .plat (.revokeVerification ..) => true
  | .plat (.updateTrustScore ..) => true
  | .plat (.deactivatePlatform ..) => true
  | _ => false

/-- C6: for every identity id and principal p, in every state,
`verifyOwnership(id, p)` returns true if and only if the identity's
`owner` field equals p AND `isActive` is true AND `isRevoked` is false;
since this holds for arbitrary states, it continues to hold after
`revokeIdentity` and after a completed recovery changes the owner. -/
theorem c6_verifyOwnership_three_way_and (s : GIR.RegState) (d : B32) (p : Addr) :
    GIR.verifyOwnership s d p = true ↔
      ((s.identities d).owner = p ∧ (s.identities d).isActive = true ∧
        (s.identities d).isRevoked = false) := by
  simp [GIR.verifyOwnership, Bool.and_eq_true, beq_iff_eq,
    Bool.not_eq_true', and_assoc]

/-- C7: for every (identity, platform) pair and every query time `now`,
`isVerificationValid` returns true iff the record's `isActive` flag is
true and (`expiresAt = 0` or `now ≤ expiresAt`); in particular, once
`now > expiresAt` with `expiresAt ≠ 0` it returns false even though no
revocation has occurred. -/
theorem c7_isVerificationValid_lazy_expiry (s : PVR.PlatState) (now : Nat)
    (d : B32) (pid : B32) :
    PVR.isVerificationValid s now d pid = true ↔
      ((s.verifications d pid).isActive = true ∧
        ((s.verifications d pid).expiresAt = 0 ∨
          now ≤ (s.verifications d pid).expiresAt)) := by
  unfold PVR.isVerificationValid
  dsimp only
  split_ifs with h1 h2 <;> simp_all <;> omega

/-- C9: `batchVerificationCheck` returns exactly the input-ordered map of
`isVerificationValid` over the identity array (so: same length, i-th
element equal to the per-element check, no short-circuit after a false
entry). -/
theorem c9_batch_is_pointwise_map (s : PVR.PlatState) (now : Nat)
    (ids : List B32) (pid : B32) :
    PVR.batchVerificationCheck s now ids pid =
        ids.map (fun i => PVR.isVerificationValid s now i pid) ∧
      (PVR.batchVerificationCheck s now ids pid).length = ids.length := by
  have hmap : PVR.batchVerificationCheck s now ids pid =
      ids.map (fun i => PVR.isVerificationValid s now i pid) := by
    unfold PVR.batchVerificationCheck
    refine List.map_congr_left (fun i _ => ?_)
    unfold PVR.isVerificationValid
    by_cases hA : (s.verifications i pid).isActive
    · simp [hA]
    · simp [hA]
  exact ⟨hmap, by rw [hmap, List.length_map]⟩

theorem revokeVerification_pause_free (r : GIR.RegState) (b : Bool)
    (sender : Addr) (d : B32) (idx : Nat) :
    GIR.revokeVerification { r with paused := b } sender d idx =
      Except.map (fun r' => { r' with paused := b })
        (GIR.revokeVerification { r with paused := false } sender d idx) := by
  unfold GIR.revokeVerification GIR.hasRole
  dsimp only
  split_ifs <;> rfl

theorem revokeIdentity_pause_free (r : GIR.RegState) (b : Bool)
    (sender : Addr) (t : Nat) (d : B32) :
    GIR.revokeIdentity { r with paused := b } sender t d =
      Except.map (fun r' => { r' with paused := b })
        (GIR.revokeIdentity { r with paused := false } sender t d) := by
  unfold GIR.revokeIdentity GIR.hasRole
  dsimp only
  split_ifs <;> rfl

theorem addGuardian_pause_free (r : GIR.RegState) (b : Bool)
    (sender : Addr) (d : B32) (g : Addr) :
    GIR.addGuardian { r with paused := b } sender d g =
      Except.map (fun r' => { r' with paused := b })
        (GIR.addGuardian { r with paused := false } sender d g) := by
  unfold GIR.addGuardian
  dsimp only
  split_ifs <;> rfl

theorem initiateRecovery_pause_free (r : GIR.RegState) (b : Bool)
    (sender : Addr) (d : B32) (newOwner : Addr) :
    GIR.initiateRecovery { r with paused := b } sender d newOwner =
      Except.map (fun r' => { r' with paused := b })
        (GIR.initiateRecovery { r with paused := false } sender d newOwner) := by
  unfold GIR.initiateRecovery GIR.isGuardian
  dsimp only
  split_ifs <;> rfl

theorem approveRecovery_pause_free (r : GIR.RegState) (b : Bool)
    (sender : Addr) (t : Nat) (d : B32) :
    GIR.approveRecovery { r with paused := b } sender t d =
      Except.map (fun r' => { r' with paused := b })
        (GIR.approveRecovery { r with paused := false } sender t d) := by
  unfold GIR.approveRecovery GIR.executeRecovery GIR.isGuardian
  dsimp only
  split_ifs <;> rfl

theorem exceptMapComp {ε α β γ : Type} (f : α → β) (g : β → γ)
    (e : Except ε α) :
    Except.map g (Except.map f e) = Except.map (fun x => g (f x)) e := by
  cases e <;> rfl

/-- C2 amended: only `createIdentity`, `updateIdentity` and
`addVerification` of the identity registry are gated by the pause flag
(failing with `SystemPaused` when it is engaged); the other mutating
entry points named by the claim — `revokeIdentity`, `revokeVerification`,
`addGuardian`, `initiateRecovery`, `approveRecovery` of the identity
registry and all operations of the platform-verification component
(which has no pause flag at all) — behave identically whether or not the
flag is engaged; read-only queries are never gated. -/
theorem c2_amended_pause_gates_only_three (s : SysState) (op : SysOp) :
    (isGatedOp op = true →
      sysExec (setPausedS s true) op = .error .SystemPaused) ∧
    (isUngatedMutating op = true → ∀ b, sysExec (setPausedS s b) op =
        Except.map (fun s2 => setPausedS s2 b) (sysExec (setPausedS s false) op)) ∧
    (∀ b d p, GIR.verifyOwnership (setPausedS s b).reg d p =
        GIR.verifyOwnership s.reg d p) ∧
    (∀ b now d pid, PVR.isVerificationValid (setPausedS s b).plat now d pid =
        PVR.isVerificationValid s.plat now d pid) := by
  refine ⟨?_, ?_, fun b d p => rfl, fun b now d pid => rfl⟩
  · cases op with
    | reg rop =>
      cases rop <;> intro h <;> first | rfl | simp [isGatedOp] at h
    | plat pop =>
      cases pop <;> intro h <;> simp [isGatedOp] at h
  · cases op with
    | reg rop =>
      cases rop <;> intro h <;>
        first
        | (intro b
           dsimp only [sysExec, GIR.regExec, setPausedS]
           first
           | rw [revokeVerification_pause_free]
           | rw [revokeIdentity_pause_free]
           | rw [addGuardian_pause_free]
           | rw [initiateRecovery_pause_free]
           | rw [approveRecovery_pause_free]
           simp only [exceptMapComp]
           try rfl)
        | simp [isUngatedMutating] at h
    | plat pop =>
      cases pop <;> intro h <;>
        first
        | (intro b
           dsimp only [sysExec, PVR.pExec, setPausedS]
           simp only [exceptMapComp]
           try rfl)
        | simp [isUngatedMutating] at h

/-- C2 counterexample: after principal 5 creates an identity and the
deployer engages the pause flag, `revokeIdentity` — one of the mutating
operations the claim says must fail with `SystemPaused` — still succeeds
and flips the identity's `isRevoked` flag while `paused = true`. -/
theorem c2_counterexample_revoke_while_paused :
    (GIR.regRun 1 [.createIdentity 5 0 (B32.raw 1) "", .pauseOp 1]).paused
        = true ∧
    ((GIR.regRun 1 [.createIdentity 5 0 (B32.raw 1) "", .pauseOp 1]).identities
        (B32.hashIdC (B32.raw 1) 5 0)).isRevoked = false ∧
    ((GIR.regStep (GIR.regRun 1 [.createIdentity 5 0 (B32.raw 1) "", .pauseOp 1])
        (.revokeIdentity 5 7 (B32.hashIdC (B32.raw 1) 5 0))).identities
        (B32.hashIdC (B32.raw 1) 5 0)).isRevoked = true := by
  decide

/-- C5 amended: the quorum a pending request must reach is recomputed
from the guardian count at the moment of each `approveRecovery` call,
not fixed when the request was created: a successful `addGuardian` while
a request is pending leaves the request (proposed owner, approval count,
approval flags) untouched but grows the guardian list by one, and the
next successful `approveRecovery` commits (observable as the pending
request being cleared) if and only if the incremented approval count
reaches `⌊(N+1)/2⌋+1` computed from the ENLARGED guardian count `N+1`. -/
theorem c5_amended_quorum_recomputed_per_approval
    (s s1 : GIR.RegState) (gsender : Addr) (d : B32) (gnew : Addr)
    (h : GIR.addGuardian s gsender d gnew = .ok s1) :
    (s1.guardians d).length = (s.guardians d).length + 1 ∧
    s1.pendingRecoveryAddress d = s.pendingRecoveryAddress d ∧
    s1.recoveryApprovalCount d = s.recoveryApprovalCount d ∧
    (∀ a, s1.recoveryApprovals d a = s.recoveryApprovals d a) ∧
    (∀ g t s2, GIR.approveRecovery s1 g t d = .ok s2 →
      (s2.pendingRecoveryAddress d = 0 ↔
        s1.recoveryApprovalCount d + 1 ≥ ((s.guardians d).length + 1) / 2 + 1)) := by
  unfold GIR.addGuardian at h
  split_ifs at h
  cases h
  refine ⟨?_, rfl, rfl, fun a => rfl, ?_⟩
  · simp [fupd]
  · intro g t s2 h2
    unfold GIR.approveRecovery at h2
    dsimp only at h2
    split_ifs at h2 with hg hp ha hq
    · cases h2
      constructor
      · intro _
        simpa [fupd] using hq
      · intro _
        simp [GIR.executeRecovery, fupd]
    · cases h2
      constructor
      · intro hzero
        exact absurd hzero (by simpa [fupd] using hp)
      · intro hge
        exact absurd (by simpa [fupd] using hge) hq

/-- C5 counterexample: principal 1 creates an identity and adds guardians
11 and 12 (so the guardian count at the moment `initiateRecovery` runs is
2, giving a creation-time quorum of `⌊2/2⌋+1 = 2`); guardian 11 initiates
recovery to principal 2 (1 approval); the owner then adds guardians 13
and 14; guardian 12's `approveRecovery` brings the distinct-approval
count to 2 — the creation-time quorum — yet the request does NOT commit:
the owner is still 1 and the request is still pending, because the code
recomputed the threshold as `⌊4/2⌋+1 = 3` from the current guardian
count.  This refutes the claim that the quorum is determined at request
creation. -/
theorem c5_counterexample_quorum_moves :
    ((GIR.regRun 1 [.createIdentity 1 0 (B32.raw 1) "",
        .addGuardian 1 (B32.hashIdC (B32.raw 1) 1 0) 11,
        .addGuardian 1 (B32.hashIdC (B32.raw 1) 1 0) 12,
        .initiateRecovery 11 (B32.hashIdC (B32.raw 1) 1 0) 2]).guardians
          (B32.hashIdC (B32.raw 1) 1 0)).length = 2 ∧
    (GIR.regRun 1 [.createIdentity 1 0 (B32.raw 1) "",
        .addGuardian 1 (B32.hashIdC (B32.raw 1) 1 0) 11,
        .addGuardian 1 (B32.hashIdC (B32.raw 1) 1 0) 12,
        .initiateRecovery 11 (B32.hashIdC (B32.raw 1) 1 0) 2]).recoveryApprovalCount
          (B32.hashIdC (B32.raw 1) 1 0) = 1 ∧
    (GIR.regRun 1 [.createIdentity 1 0 (B32.raw 1) "",
        .addGuardian 1 (B32.hashIdC (B32.raw 1) 1 0) 11,
        .addGuardian 1 (B32.hashIdC (B32.raw 1) 1 0) 12,
        .initiateRecovery 11 (B32.hashIdC (B32.raw 1) 1 0) 2,
        .addGuardian 1 (B32.hashIdC (B32.raw 1) 1 0) 13,
        .addGuardian 1 (B32.hashIdC (B32.raw 1) 1 0) 14,
        .approveRecovery 12 5 (B32.hashIdC (B32.raw 1) 1 0)]).recoveryApprovalCount
          (B32.hashIdC (B32.raw 1) 1 0) = 2 ∧
    ((GIR.regRun 1 [.createIdentity 1 0 (B32.raw 1) "",
        .addGuardian 1 (B32.hashIdC (B32.raw 1) 1 0) 11,
        .addGuardian 1 (B32.hashIdC (B32.raw 1) 1 0) 12,
        .initiateRecovery 11 (B32.hashIdC (B32.raw 1) 1 0) 2,
        .addGuardian 1 (B32.hashIdC (B32.raw 1) 1 0) 13,
        .addGuardian 1 (B32.hashIdC (B32.raw 1) 1 0) 14,
        .approveRecovery 12 5 (B32.hashIdC (B32.raw 1) 1 0)]).identities
          (B32.hashIdC (B32.raw 1) 1 0)).owner = 1 ∧
    (GIR.regRun 1 [.createIdentity 1 0 (B32.raw 1) "",
        .addGuardian 1 (B32.hashIdC (B32.raw 1) 1 0) 11,
        .addGuardian 1 (B32.hashIdC (B32.raw 1) 1 0) 12,
        .initiateRecovery 11 (B32.hashIdC (B32.raw 1) 1 0) 2,
        .addGuardian 1 (B32.hashIdC (B32.raw 1) 1 0) 13,
        .addGuardian 1 (B32.hashIdC (B32.raw 1) 1 0) 14,
        .approveRecovery 12 5 (B32.hashIdC (B32.raw 1) 1 0)]).pendingRecoveryAddress
          (B32.hashIdC (B32.raw 1) 1 0) = 2 := by
  decide

/-- C8: when the record for (identity, platform) has `isActive = true`
but is expired (`expiresAt ≠ 0` and `now > expiresAt`), the query
`isVerificationValid` is false, yet `createVerification` for the same
pair (with its earlier guards — active platform, authorized caller,
nonempty platform user id, nonzero DID — satisfied) still fails with
`VerificationAlreadyExists`; and no operation of the platform contract
other than an explicit `revokeVerification` of exactly that pair ever
clears the record's `isActive` flag. -/
theorem c8_expired_slot_stays_occupied (s : PVR.PlatState) (now : Nat)
    (did pid : B32) (uid : String) (expDays : Nat) (att : B32) (sender : Addr)
    (hact : (s.verifications did pid).isActive = true)
    (hexp : (s.verifications did pid).expiresAt ≠ 0)
    (hlate : now > (s.verifications did pid).expiresAt)
    (hplat : (s.platforms pid).isActive = true)
    (hauth : (s.platforms pid).adminAddress = sender ∨
      PVR.pHasRole s .platformAdmin sender = true)
    (huid : uid ≠ "")
    (hdid : did ≠ B32.zero) :
    PVR.isVerificationValid s now did pid = false ∧
    PVR.createVerification s sender now did pid uid expDays att =
      .error .VerificationAlreadyExists ∧
    (∀ (op : PVR.PlatOp) (s2 : PVR.PlatState), PVR.pExec s op = .ok s2 →
      (s2.verifications did pid).isActive = false →
      ∃ a, op = .revokeVerification a did pid) := by
  refine ⟨?_, ?_, ?_⟩
  · unfold PVR.isVerificationValid
    dsimp only
    split_ifs with h1 h2 <;> simp_all <;> omega
  · unfold PVR.createVerification
    split_ifs <;> simp_all
  · intro op s2 hok hcleared
    cases op with
    | registerPlatform a t n dom pt =>
      unfold PVR.pExec PVR.registerPlatform at hok
      dsimp only at hok
      split_ifs at hok
      cases hok
      simp_all
    | createVerification a t d2 p2 u2 e2 a2 =>
      unfold PVR.pExec PVR.createVerification at hok
      dsimp only at hok
      split_ifs at hok <;> cases hok <;> by_cases hd : did = d2 <;>
        by_cases hp : pid = p2 <;> simp_all [fupd]
    | revokeVerification a d2 p2 =>
      unfold PVR.pExec PVR.revokeVerification at hok
      dsimp only at hok
      split_ifs at hok
      cases hok
      by_cases hd : did = d2
      · by_cases hp : pid = p2
        · subst hd; subst hp; exact ⟨a, rfl⟩
        · simp_all [fupd]
      · simp_all [fupd]
    | updateTrustScore a d2 p2 sc =>
      unfold PVR.pExec PVR.updateTrustScore at hok
      dsimp only at hok
      split_ifs at hok
      cases hok
      by_cases hd : did = d2
      · by_cases hp : pid = p2
        · subst hd; subst hp; simp_all [fupd]
        · simp_all [fupd]
      · simp_all [fupd]
    | deactivatePlatform a p2 =>
      unfold PVR.pExec PVR.deactivatePlatform at hok
      dsimp only at hok
      split_ifs at hok
      cases hok
      simp_all
    | grantRole a r x =>
      unfold PVR.pExec PVR.pGrantRole at hok
      dsimp only at hok
      split_ifs at hok
      cases hok
      simp_all

/-- The maximum `verificationType` over ALL records of a list (whether or
not still valid); 0 for the empty list. -/
def maxTypeAll (l : List GIR.Verification) : Nat :=
  l.foldr (fun v m => max v.verificationType m) 0

/-- The maximum `verificationType` over the records whose `isValid` flag
is true; 0 when there is none.  Modelled from the spec wording of the
claimed invariant ("max(verificationType over all isValid==true records
for that identity)"), for comparison against the code. -/
def specValidMax (l : List GIR.Verification) : Nat :=
  l.foldr (fun v m => if v.isValid then max v.verificationType m else m) 0

theorem maxTypeAll_append (l : List GIR.Verification) (v : GIR.Verification) :
    maxTypeAll (l ++ [v]) = max (maxTypeAll l) v.verificationType := by
  unfold maxTypeAll
  induction l with
  | nil => simp
  | cons x xs ih =>
    simp only [List.append_eq, List.cons_append, List.foldr] at *
    omega

theorem maxTypeAll_set (l : List GIR.Verification) (idx : Nat)
    (v' : GIR.Verification) (h : idx < l.length)
    (ht : v'.verificationType = (l.get ⟨idx, h⟩).verificationType) :
    maxTypeAll (l.set idx v') = maxTypeAll l := by
  induction l generalizing idx with
  | nil => cases h
  | cons x xs ih =>
    cases idx with
    | zero =>
      simp only [List.get] at ht
      simp [maxTypeAll, List.foldr, ht]
    | succ n =>
      have hn : n < xs.length := by simpa using h
      simp only [List.get] at ht
      simp only [List.set, maxTypeAll, List.foldr]
      rw [show List.foldr (fun v m => max v.verificationType m) 0
            (xs.set n v') = maxTypeAll (xs.set n v') from rfl,
          ih n hn ht]
      rfl

theorem GIR.regStep_ok {s s' : GIR.RegState} {op : GIR.RegOp}
    (h : GIR.regExec s op = .ok s') : GIR.regStep s op = s' := by
  unfold GIR.regStep
  rw [h]

theorem GIR.regStep_error {s : GIR.RegState} {op : GIR.RegOp} {e : Err}
    (h : GIR.regExec s op = .error e) : GIR.regStep s op = s := by
  unfold GIR.regStep
  rw [h]

/-- The state invariant backing the amended C3: the stored
`verificationLevel` of every identity is the historical maximum of the
types of ALL its verification records (valid or revoked), and active
identities / nonempty record lists live only at DIDs whose identity hash
has been marked used. -/
def LevelInv (s : GIR.RegState) : Prop :=
  (∀ d, (s.identities d).verificationLevel = maxTypeAll (s.verifications d)) ∧
  (∀ h a t, (s.identities (B32.hashIdC h a t)).isActive = true →
    s.identityHashExists h = true) ∧
  (∀ h a t, s.verifications (B32.hashIdC h a t) ≠ [] →
    s.identityHashExists h = true)

theorem levelInv_init (dep : Addr) : LevelInv (GIR.regInit dep) := by
  refine ⟨fun d => rfl, fun h a t hc => ?_, fun h a t hc => ?_⟩
  · simp [GIR.regInit] at hc
  · simp [GIR.regInit] at hc

theorem levelInv_step (s : GIR.RegState) (op : GIR.RegOp)
    (hInv : LevelInv s) : LevelInv (GIR.regStep s op) := by
  obtain ⟨h1, h2, h3⟩ := hInv
  cases hE : GIR.regExec s op with
  | error e =>
    rw [GIR.regStep_error hE]
    exact ⟨h1, h2, h3⟩
  | ok s' =>
    rw [GIR.regStep_ok hE]
    cases op with
    | createIdentity a t hsh ip =>
      unfold GIR.regExec GIR.createIdentity at hE
      dsimp only at hE
      split_ifs at hE with g1 g2 g3
      cases hE
      refine ⟨?_, ?_, ?_⟩
      · intro d
        by_cases hd : d = B32.hashIdC hsh a t
        · subst hd
          have hv : s.verifications (B32.hashIdC hsh a t) = [] := by
            by_contra hne
            exact g2 (h3 hsh a t hne)
          simp [fupd, hv, maxTypeAll]
        · simpa [fupd, hd] using h1 d
      · intro h a' t' hact
        by_cases hh : h = hsh
        · subst hh
          simp [fupd]
        · have hdd : B32.hashIdC h a' t' ≠ B32.hashIdC hsh a t := by
            intro hc
            injection hc with e1 e2 e3
            exact hh e1
          show fupd s.identityHashExists hsh true h = true
          rw [fupd_other s.identityHashExists hsh h true hh]
          apply h2 h a' t'
          simpa [fupd, hdd] using hact
      · intro h a' t' hne
        by_cases hh : h = hsh
        · subst hh
          simp [fupd]
        · show fupd s.identityHashExists hsh true h = true
          rw [fupd_other s.identityHashExists hsh h true hh]
          exact h3 h a' t' hne
    | updateIdentity a t did ip =>
      unfold GIR.regExec GIR.updateIdentity at hE
      dsimp only at hE
      split_ifs at hE with g1 g2 g3 g4
      cases hE
      refine ⟨?_, ?_, h3⟩
      · intro d
        by_cases hd : d = did
        · subst hd
          simpa [fupd] using h1 d
        · simpa [fupd, hd] using h1 d
      · intro h a' t' hact
        apply h2 h a' t'
        by_cases hdd : B32.hashIdC h a' t' = did
        · rw [hdd] at hact ⊢
          simpa [fupd] using hact
        · simpa [fupd, hdd] using hact
    | addVerification a t did vtype proof =>
      unfold GIR.regExec GIR.addVerification at hE
      dsimp only at hE
      split_ifs at hE with g1 g2 g3 g4 g5 g6
      case _ =>
        -- vtype > current level: the level is raised to vtype
        cases hE
        refine ⟨?_, ?_, ?_⟩
        · intro d
          by_cases hd : d = did
          · subst hd
            have := h1 d
            simp only [fupd_same]
            rw [maxTypeAll_append]
            simp [fupd]
            omega
          · simpa [fupd, hd] using h1 d
        · intro h a' t' hact
          apply h2 h a' t'
          by_cases hdd : B32.hashIdC h a' t' = did
          · rw [hdd] at hact ⊢
            simpa [fupd] using hact
          · simpa [fupd, hdd] using hact
        · intro h a' t' hne
          by_cases hdd : B32.hashIdC h a' t' = did
          · apply h2 h a' t'
            rw [hdd]
            simpa using g3
          · apply h3 h a' t'
            simpa [fupd, hdd] using hne
      case _ =>
        -- vtype not above the current level: the level is unchanged
        cases hE
        refine ⟨?_, ?_, ?_⟩
        · intro d
          by_cases hd : d = did
          · subst hd
            have := h1 d
            simp only [fupd_same]
            rw [maxTypeAll_append]
            simp [fupd]
            omega
          · simpa [fupd, hd] using h1 d
        · intro h a' t' hact
          exact h2 h a' t' hact
        · intro h a' t' hne
          by_cases hdd : B32.hashIdC h a' t' = did
          · apply h2 h a' t'
            rw [hdd]
            simpa using g3
          · apply h3 h a' t'
            simpa [fupd, hdd] using hne
    | revokeVerification a did idx =>
      unfold GIR.regExec GIR.revokeVerification at hE
      dsimp only at hE
      split_ifs at hE with g1 g2 g3
      cases hE
      have hidx : idx < (s.verifications did).length := g2
      refine ⟨?_, h2, ?_⟩
      · intro d
        by_cases hd : d = did
        · subst hd
          have := h1 d
          simp only [fupd_same]
          rw [maxTypeAll_set (s.verifications d) idx
            { (s.verifications d).get ⟨idx, g2⟩ with isValid := false } g2 rfl]
          simpa [fupd] using this
        · simpa [fupd, hd] using h1 d
      · intro h a' t' hne
        apply h3 h a' t'
        by_cases hdd : B32.hashIdC h a' t' = did
        · rw [hdd]
          intro hnil
          rw [hdd] at hne
          simp [fupd, hnil] at hne
        · simpa [fupd, hdd] using hne
    | revokeIdentity a t did =>
      unfold GIR.regExec GIR.revokeIdentity at hE
      dsimp only at hE
      split_ifs at hE with g1 g2
      cases hE
      refine ⟨?_, ?_, h3⟩
      · intro d
        by_cases hd : d = did
        · subst hd
          simpa [fupd] using h1 d
        · simpa [fupd, hd] using h1 d
      · intro h a' t' hact
        apply h2 h a' t'
        by_cases hdd : B32.hashIdC h a' t' = did
        · rw [hdd] at hact
          simp [fupd] at hact
        · simpa [fupd, hdd] using hact
    | addGuardian a did g =>
      unfold GIR.regExec GIR.addGuardian at hE
      dsimp only at hE
      split_ifs at hE
      cases hE
      exact ⟨h1, h2, h3⟩
    | initiateRecovery a did newOwner =>
      unfold GIR.regExec GIR.initiateRecovery at hE
      dsimp only at hE
      split_ifs at hE
      cases hE
      exact ⟨h1, h2, h3⟩
    | approveRecovery a t did =>
      unfold GIR.regExec GIR.approveRecovery GIR.executeRecovery at hE
      dsimp only at hE
      split_ifs at hE with g1 g2 g3 g4
      · -- quorum reached: ownership transfer, level untouched
        cases hE
        refine ⟨?_, ?_, h3⟩
        · intro d
          by_cases hd : d = did
          · subst hd
            simpa [fupd] using h1 d
          · simpa [fupd, hd] using h1 d
        · intro h a' t' hact
          apply h2 h a' t'
          by_cases hdd : B32.hashIdC h a' t' = did
          · rw [hdd] at hact ⊢
            simpa [fupd] using hact
          · simpa [fupd, hdd] using hact
      · cases hE
        exact ⟨h1, h2, h3⟩
    | pauseOp a =>
      unfold GIR.regExec GIR.pauseFn at hE
      dsimp only at hE
      split_ifs at hE
      cases hE
      exact ⟨h1, h2, h3⟩
    | unpauseOp a =>
      unfold GIR.regExec GIR.unpauseFn at hE
      dsimp only at hE
      split_ifs at hE
      cases hE
      exact ⟨h1, h2, h3⟩
    | grantRole a r x =>
      unfold GIR.regExec GIR.grantRoleFn at hE
      dsimp only at hE
      split_ifs at hE
      cases hE
      exact ⟨h1, h2, h3⟩
    | revokeRole a r x =>
      unfold GIR.regExec GIR.revokeRoleFn at hE
      dsimp only at hE
      split_ifs at hE
      cases hE
      exact ⟨h1, h2, h3⟩

theorem levelInv_run (dep : Addr) (ops : List GIR.RegOp) :
    LevelInv (GIR.regRun dep ops) := by
  unfold GIR.regRun
  have hall : ∀ (l : List GIR.RegOp) (s : GIR.RegState),
      LevelInv s → LevelInv (l.foldl GIR.regStep s) := by
    intro l
    induction l with
    | nil => exact fun s hs => hs
    | cons op rest ih => exact fun s hs => ih _ (levelInv_step s op hs)
  exact hall ops _ (levelInv_init dep)

/-- C3 amended: in every reachable state, `identity.verificationLevel`
equals the maximum `verificationType` over ALL of that identity's
verification records — valid or revoked — i.e. the historical peak (and
0 when no record exists).  `revokeVerification` flips `isValid` without
recomputing the level, so the level does NOT track only the
`isValid == true` records as the original claim stated. -/
theorem c3_amended_level_is_historical_max (dep : Addr)
    (ops : List GIR.RegOp) (d : B32) :
    ((GIR.regRun dep ops).identities d).verificationLevel =
      maxTypeAll ((GIR.regRun dep ops).verifications d) :=
  (levelInv_run dep ops).1 d

/-- C3 counterexample: the deployer grants the verifier role to
principal 3; principal 5 creates an identity; verifier 3 adds a
government-id verification (type 3), raising the level to 3; verifier 3
then revokes that very record (`isValid := false`).  In the resulting
reachable state the identity's `verificationLevel` is still 3 while the
maximum `verificationType` over `isValid == true` records is 0, so the
claimed invariant is false after `revokeVerification`. -/
theorem c3_counterexample_level_survives_revoke :
    ((GIR.regRun 1 [.grantRole 1 .verifier 3,
        .createIdentity 5 0 (B32.raw 1) "",
        .addVerification 3 1 (B32.hashIdC (B32.raw 1) 5 0) 3 (B32.raw 7),
        .revokeVerification 3 (B32.hashIdC (B32.raw 1) 5 0) 0]).identities
          (B32.hashIdC (B32.raw 1) 5 0)).verificationLevel = 3 ∧
    specValidMax ((GIR.regRun 1 [.grantRole 1 .verifier 3,
        .createIdentity 5 0 (B32.raw 1) "",
        .addVerification 3 1 (B32.hashIdC (B32.raw 1) 5 0) 3 (B32.raw 7),
        .revokeVerification 3 (B32.hashIdC (B32.raw 1) 5 0) 0]).verifications
          (B32.hashIdC (B32.raw 1) 5 0)) = 0 := by
  decide

/-- Run a transaction list while accumulating the DID returned by every
SUCCESSFUL `createIdentity` (the DID is recomputed from the call's
arguments exactly as the source computes it). -/
def GIR.regRunAcc : GIR.RegState → List B32 → List GIR.RegOp →
    GIR.RegState × List B32
  | s, acc, [] => (s, acc)
  | s, acc, op :: rest =>
    match GIR.regExec s op with
    | .ok s' =>
      match op with
      | .createIdentity sender time idHash _ =>
        GIR.regRunAcc s' (acc ++ [B32.hashIdC idHash sender time]) rest
      | _ => GIR.regRunAcc s' acc rest
    | .error _ => GIR.regRunAcc s acc rest

theorem hashExists_mono (s s' : GIR.RegState) (op : GIR.RegOp)
    (hE : GIR.regExec s op = .ok s') (h : B32)
    (hh : s.identityHashExists h = true) : s'.identityHashExists h = true := by
  cases op with
  | createIdentity a t hsh ip =>
    unfold GIR.regExec GIR.createIdentity at hE
    dsimp only at hE
    split_ifs at hE
    cases hE
    by_cases hx : h = hsh
    · subst hx
      simp [fupd]
    · simpa [fupd, hx] using hh
  | updateIdentity a t d ip =>
    unfold GIR.regExec GIR.updateIdentity at hE
    dsimp only at hE
    split_ifs at hE
    cases hE
    exact hh
  | addVerification a t d v pr =>
    unfold GIR.regExec GIR.addVerification at hE
    dsimp only at hE
    split_ifs at hE
    all_goals cases hE
    all_goals exact hh
  | revokeVerification a d i =>
    unfold GIR.regExec GIR.revokeVerification at hE
    dsimp only at hE
    split_ifs at hE
    cases hE
    exact hh
  | revokeIdentity a t d =>
    unfold GIR.regExec GIR.revokeIdentity at hE
    dsimp only at hE
    split_ifs at hE
    cases hE
    exact hh
  | addGuardian a d g =>
    unfold GIR.regExec GIR.addGuardian at hE
    dsimp only at hE
    split_ifs at hE
    cases hE
    exact hh
  | initiateRecovery a d n =>
    unfold GIR.regExec GIR.initiateRecovery at hE
    dsimp only at hE
    split_ifs at hE
    cases hE
    exact hh
  | approveRecovery a t d =>
    unfold GIR.regExec GIR.approveRecovery GIR.executeRecovery at hE
    dsimp only at hE
    split_ifs at hE
    all_goals cases hE
    all_goals exact hh
  | pauseOp a =>
    unfold GIR.regExec GIR.pauseFn at hE
    dsimp only at hE
    split_ifs at hE
    cases hE
    exact hh
  | unpauseOp a =>
    unfold GIR.regExec GIR.unpauseFn at hE
    dsimp only at hE
    split_ifs at hE
    cases hE
    exact hh
  | grantRole a r x =>
    unfold GIR.regExec GIR.grantRoleFn at hE
    dsimp only at hE
    split_ifs at hE
    cases hE
    exact hh
  | revokeRole a r x =>
    unfold GIR.regExec GIR.revokeRoleFn at hE
    dsimp only at hE
    split_ifs at hE
    cases hE
    exact hh

/-- The invariant backing the amended C4: the accumulated created-DID
list is duplicate-free, and every accumulated DID is a keccak image
whose identity-hash component is marked used in the current state. -/
def CreatedInv (s : GIR.RegState) (acc : List B32) : Prop :=
  acc.Nodup ∧
  ∀ d ∈ acc, ∃ h a t, d = B32.hashIdC h a t ∧ s.identityHashExists h = true

theorem createdInv_runAcc (ops : List GIR.RegOp) :
    ∀ (s : GIR.RegState) (acc : List B32), CreatedInv s acc →
      CreatedInv (GIR.regRunAcc s acc ops).1 (GIR.regRunAcc s acc ops).2 := by
  induction ops with
  | nil => exact fun s acc h => h
  | cons op rest ih =>
    intro s acc hInv
    cases hE : GIR.regExec s op with
    | error e =>
      simp only [GIR.regRunAcc, hE]
      exact ih s acc hInv
    | ok s' =>
      cases op with
      | createIdentity a t hsh ip =>
        simp only [GIR.regRunAcc, hE]
        have hE' := hE
        unfold GIR.regExec GIR.createIdentity at hE'
        dsimp only at hE'
        split_ifs at hE' with g1 g2 g3
        cases hE'
        apply ih
        constructor
        · rw [List.nodup_append]
          refine ⟨hInv.1, List.nodup_singleton _, ?_⟩
          intro d hd hd1
          obtain ⟨h', a', t', hdeq, hex⟩ := hInv.2 d hd
          simp only [List.mem_singleton] at hd1
          subst hd1
          injection hdeq with e1 e2 e3
          exact g2 (e1 ▸ hex)
        · intro d hd
          rcases List.mem_append.mp hd with hda | hdb
          · obtain ⟨h', a', t', hdeq, hex⟩ := hInv.2 d hda
            refine ⟨h', a', t', hdeq, ?_⟩
            by_cases hxx : h' = hsh
            · subst hxx
              simp [fupd]
            · simpa [fupd, hxx] using hex
          · simp only [List.mem_singleton] at hdb
            subst hdb
            exact ⟨hsh, a, t, rfl, by simp [fupd]⟩
      | updateIdentity a t d ip =>
        simp only [GIR.regRunAcc, hE]
        exact ih s' acc ⟨hInv.1, fun d2 hd2 => by
          obtain ⟨h', a', t', hdeq, hex⟩ := hInv.2 d2 hd2
          exact ⟨h', a', t', hdeq, hashExists_mono s s' _ hE h' hex⟩⟩
      | addVerification a t d v pr =>
        simp only [GIR.regRunAcc, hE]
        exact ih s' acc ⟨hInv.1, fun d2 hd2 => by
          obtain ⟨h', a', t', hdeq, hex⟩ := hInv.2 d2 hd2
          exact ⟨h', a', t', hdeq, hashExists_mono s s' _ hE h' hex⟩⟩
      | revokeVerification a d i =>
        simp only [GIR.regRunAcc, hE]
        exact ih s' acc ⟨hInv.1, fun d2 hd2 => by
          obtain ⟨h', a', t', hdeq, hex⟩ := hInv.2 d2 hd2
          exact ⟨h', a', t', hdeq, hashExists_mono s s' _ hE h' hex⟩⟩
      | revokeIdentity a t d =>
        simp only [GIR.regRunAcc, hE]
        exact ih s' acc ⟨hInv.1, fun d2 hd2 => by
          obtain ⟨h', a', t', hdeq, hex⟩ := hInv.2 d2 hd2
          exact ⟨h', a', t', hdeq, hashExists_mono s s' _ hE h' hex⟩⟩
      | addGuardian a d g =>
        simp only [GIR.regRunAcc, hE]
        exact ih s' acc ⟨hInv.1, fun d2 hd2 => by
          obtain ⟨h', a', t', hdeq, hex⟩ := hInv.2 d2 hd2
          exact ⟨h', a', t', hdeq, hashExists_mono s s' _ hE h' hex⟩⟩
      | initiateRecovery a d n =>
        simp only [GIR.regRunAcc, hE]
        exact ih s' acc ⟨hInv.1, fun d2 hd2 => by
          obtain ⟨h', a', t', hdeq, hex⟩ := hInv.2 d2 hd2
          exact ⟨h', a', t', hdeq, hashExists_mono s s' _ hE h' hex⟩⟩
      | approveRecovery a t d =>
        simp only [GIR.regRunAcc, hE]
        exact ih s' acc ⟨hInv.1, fun d2 hd2 => by
          obtain ⟨h', a', t', hdeq, hex⟩ := hInv.2 d2 hd2
          exact ⟨h', a', t', hdeq, hashExists_mono s s' _ hE h' hex⟩⟩
      | pauseOp a =>
        simp only [GIR.regRunAcc, hE]
        exact ih s' acc ⟨hInv.1, fun d2 hd2 => by
          obtain ⟨h', a', t', hdeq, hex⟩ := hInv.2 d2 hd2
          exact ⟨h', a', t', hdeq, hashExists_mono s s' _ hE h' hex⟩⟩
      | unpauseOp a =>
        simp only [GIR.regRunAcc, hE]
        exact ih s' acc ⟨hInv.1, fun d2 hd2 => by
          obtain ⟨h', a', t', hdeq, hex⟩ := hInv.2 d2 hd2
          exact ⟨h', a', t', hdeq, hashExists_mono s s' _ hE h' hex⟩⟩
      | grantRole a r x =>
        simp only [GIR.regRunAcc, hE]
        exact ih s' acc ⟨hInv.1, fun d2 hd2 => by
          obtain ⟨h', a', t', hdeq, hex⟩ := hInv.2 d2 hd2
          exact ⟨h', a', t', hdeq, hashExists_mono s s' _ hE h' hex⟩⟩
      | revokeRole a r x =>
        simp only [GIR.regRunAcc, hE]
        exact ih s' acc ⟨hInv.1, fun d2 hd2 => by
          obtain ⟨h', a', t', hdeq, hex⟩ := hInv.2 d2 hd2
          exact ⟨h', a', t', hdeq, hashExists_mono s s' _ hE h' hex⟩⟩

/-- C4 amended: across every sequence of operations from deployment, the
DIDs returned by successful `createIdentity` calls are pairwise distinct
(the per-principal "at most one active identity" half of the original
claim is refuted by the recovery counterexample). -/
theorem c4_amended_created_ids_unique (dep : Addr) (ops : List GIR.RegOp) :
    (GIR.regRunAcc (GIR.regInit dep) [] ops).2.Nodup :=
  (createdInv_runAcc ops (GIR.regInit dep) []
    ⟨List.nodup_nil, by intro d hd; cases hd⟩).1

/-- C4 counterexample: principals 1 and 2 each create an identity (DIDs
dA and dB); the owner of dA appoints guardians 11 and 12; they recover
dA to principal 2, who already owns dB.  In the resulting reachable
state the two distinct identities dA and dB are both active, unrevoked,
and owned by principal 2 — refuting "each principal is the owner of at
most one active identity ... including recoveries that transfer
ownership to an arbitrary proposed owner". -/
theorem c4_counterexample_two_active_identities_one_owner :
    ((GIR.regRun 1 [.createIdentity 1 0 (B32.raw 1) "",
        .createIdentity 2 0 (B32.raw 2) "",
        .addGuardian 1 (B32.hashIdC (B32.raw 1) 1 0) 11,
        .addGuardian 1 (B32.hashIdC (B32.raw 1) 1 0) 12,
        .initiateRecovery 11 (B32.hashIdC (B32.raw 1) 1 0) 2,
        .approveRecovery 12 5 (B32.hashIdC (B32.raw 1) 1 0)]).identities
          (B32.hashIdC (B32.raw 1) 1 0)).owner = 2 ∧
    ((GIR.regRun 1 [.createIdentity 1 0 (B32.raw 1) "",
        .createIdentity 2 0 (B32.raw 2) "",
        .addGuardian 1 (B32.hashIdC (B32.raw 1) 1 0) 11,
        .addGuardian 1 (B32.hashIdC (B32.raw 1) 1 0) 12,
        .initiateRecovery 11 (B32.hashIdC (B32.raw 1) 1 0) 2,
        .approveRecovery 12 5 (B32.hashIdC (B32.raw 1) 1 0)]).identities
          (B32.hashIdC (B32.raw 2) 2 0)).owner = 2 ∧
    ((GIR.regRun 1 [.createIdentity 1 0 (B32.raw 1) "",
        .createIdentity 2 0 (B32.raw 2) "",
        .addGuardian 1 (B32.hashIdC (B32.raw 1) 1 0) 11,
        .addGuardian 1 (B32.hashIdC (B32.raw 1) 1 0) 12,
        .initiateRecovery 11 (B32.hashIdC (B32.raw 1) 1 0) 2,
        .approveRecovery 12 5 (B32.hashIdC (B32.raw 1) 1 0)]).identities
          (B32.hashIdC (B32.raw 1) 1 0)).isActive = true ∧
    ((GIR.regRun 1 [.createIdentity 1 0 (B32.raw 1) "",
        .createIdentity 2 0 (B32.raw 2) "",
        .addGuardian 1 (B32.hashIdC (B32.raw 1) 1 0) 11,
        .addGuardian 1 (B32.hashIdC (B32.raw 1) 1 0) 12,
        .initiateRecovery 11 (B32.hashIdC (B32.raw 1) 1 0) 2,
        .approveRecovery 12 5 (B32.hashIdC (B32.raw 1) 1 0)]).identities
          (B32.hashIdC (B32.raw 2) 2 0)).isActive = true ∧
    ((GIR.regRun 1 [.createIdentity 1 0 (B32.raw 1) "",
        .createIdentity 2 0 (B32.raw 2) "",
        .addGuardian 1 (B32.hashIdC (B32.raw 1) 1 0) 11,
        .addGuardian 1 (B32.hashIdC (B32.raw 1) 1 0) 12,
        .initiateRecovery 11 (B32.hashIdC (B32.raw 1) 1 0) 2,
        .approveRecovery 12 5 (B32.hashIdC (B32.raw 1) 1 0)]).identities
          (B32.hashIdC (B32.raw 1) 1 0)).isRevoked = false ∧
    ((GIR.regRun 1 [.createIdentity 1 0 (B32.raw 1) "",
        .createIdentity 2 0 (B32.raw 2) "",
        .addGuardian 1 (B32.hashIdC (B32.raw 1) 1 0) 11,
        .addGuardian 1 (B32.hashIdC (B32.raw 1) 1 0) 12,
        .initiateRecovery 11 (B32.hashIdC (B32.raw 1) 1 0) 2,
        .approveRecovery 12 5 (B32.hashIdC (B32.raw 1) 1 0)]).identities
          (B32.hashIdC (B32.raw 2) 2 0)).isRevoked = false ∧
    B32.hashIdC (B32.raw 1) 1 0 ≠ B32.hashIdC (B32.raw 2) 2 0 := by
  decide

/-- The invariant backing the amended C1: approval flags are held only by
guardians; an identity with no pending request has no approvals and a
zero count; and the stored approval count always equals the number of
distinct principals whose approval flag is set. -/
def RecovInv (s : GIR.RegState) : Prop :=
  (∀ d a, s.recoveryApprovals d a = true → a ∈ s.guardians d) ∧
  (∀ d, s.pendingRecoveryAddress d = 0 →
    s.recoveryApprovalCount d = 0 ∧ ∀ a, s.recoveryApprovals d a = false) ∧
  (∀ d, ∃ l : List Addr, l.Nodup ∧
    (∀ a, s.recoveryApprovals d a = true ↔ a ∈ l) ∧
    s.recoveryApprovalCount d = l.length)

theorem recovInv_init (dep : Addr) : RecovInv (GIR.regInit dep) := by
  refine ⟨fun d a h => ?_, fun d _ => ⟨rfl, fun a => rfl⟩,
    fun d => ⟨[], List.nodup_nil, fun a => ?_, rfl⟩⟩
  · simp [GIR.regInit] at h
  · simp [GIR.regInit]

theorem recovInv_step (s : GIR.RegState) (op : GIR.RegOp)
    (hInv : RecovInv s) : RecovInv (GIR.regStep s op) := by
  obtain ⟨h1, h2, h3⟩ := hInv
  cases hE : GIR.regExec s op with
  | error e =>
    rw [GIR.regStep_error hE]
    exact ⟨h1, h2, h3⟩
  | ok s' =>
    rw [GIR.regStep_ok hE]
    cases op with
    | createIdentity a t hsh ip =>
      unfold GIR.regExec GIR.createIdentity at hE
      dsimp only at hE
      split_ifs at hE
      cases hE
      exact ⟨h1, h2, h3⟩
    | updateIdentity a t d ip =>
      unfold GIR.regExec GIR.updateIdentity at hE
      dsimp only at hE
      split_ifs at hE
      cases hE
      exact ⟨h1, h2, h3⟩
    | addVerification a t d v pr =>
      unfold GIR.regExec GIR.addVerification at hE
      dsimp only at hE
      split_ifs at hE
      all_goals cases hE
      all_goals exact ⟨h1, h2, h3⟩
    | revokeVerification a d i =>
      unfold GIR.regExec GIR.revokeVerification at hE
      dsimp only at hE
      split_ifs at hE
      cases hE
      exact ⟨h1, h2, h3⟩
    | revokeIdentity a t d =>
      unfold GIR.regExec GIR.revokeIdentity at hE
      dsimp only at hE
      split_ifs at hE
      cases hE
      exact ⟨h1, h2, h3⟩
    | addGuardian a d g =>
      unfold GIR.regExec GIR.addGuardian at hE
      dsimp only at hE
      split_ifs at hE
      cases hE
      refine ⟨?_, h2, h3⟩
      intro d2 a2 hap
      by_cases hd : d2 = d
      · subst hd
        have := h1 d2 a2 hap
        simp only [fupd_same]
        exact List.mem_append.mpr (Or.inl this)
      · simpa [fupd, hd] using h1 d2 a2 hap
    | initiateRecovery g d newOwner =>
      unfold GIR.regExec GIR.initiateRecovery GIR.isGuardian at hE
      dsimp only at hE
      split_ifs at hE with g1 g2 g3
      cases hE
      have hg : g ∈ s.guardians d := by simpa using g1
      have hnone := h2 d (by simpa using g3)
      refine ⟨?_, ?_, ?_⟩
      · intro d2 a2 hap
        by_cases hd : d2 = d
        · subst hd
          by_cases ha : a2 = g
          · subst ha
            exact hg
          · simp [fupd, ha, hnone.2 a2] at hap
        · exact h1 d2 a2 (by simpa [fupd, hd] using hap)
      · intro d2 hp
        by_cases hd : d2 = d
        · subst hd
          simp only [fupd_same] at hp
          exact absurd hp g2
        · have := h2 d2 (by simpa [fupd, hd] using hp)
          exact ⟨by simpa [fupd, hd] using this.1,
            fun a2 => by simpa [fupd, hd] using this.2 a2⟩
      · intro d2
        by_cases hd : d2 = d
        · subst hd
          refine ⟨[g], List.nodup_singleton g, ?_, by simp [fupd]⟩
          intro a2
          by_cases ha : a2 = g
          · subst ha
            simp [fupd]
          · simp [fupd, ha, hnone.2 a2]
        · obtain ⟨l, hnd, hiff, hlen⟩ := h3 d2
          exact ⟨l, hnd, fun a2 => by simpa [fupd, hd] using hiff a2,
            by simpa [fupd, hd] using hlen⟩
    | approveRecovery g t d =>
      unfold GIR.regExec GIR.approveRecovery GIR.executeRecovery GIR.isGuardian at hE
      dsimp only at hE
      split_ifs at hE with g1 g2 g3 g4
      · -- quorum reached in this approval: request consumed
        cases hE
        have hg : g ∈ s.guardians d := by simpa using g1
        have hclear : ∀ a, (if a ∈ s.guardians d then false
            else fupd (s.recoveryApprovals d) g true a) = false := by
          intro a
          by_cases hmem : a ∈ s.guardians d
          · simp [hmem]
          · rw [if_neg hmem]
            by_cases ha : a = g
            · subst ha
              exact absurd hg hmem
            · rw [fupd_other _ _ _ _ ha]
              by_cases hval : s.recoveryApprovals d a = true
              · exact absurd (h1 d a hval) hmem
              · simpa using hval
        refine ⟨?_, ?_, ?_⟩
        · intro d2 a2 hap
          by_cases hd : d2 = d
          · subst hd
            exfalso
            simp only [fupd_same] at hap
            rw [hclear a2] at hap
            cases hap
          · exact h1 d2 a2 (by simpa [fupd, hd] using hap)
        · intro d2 hp
          by_cases hd : d2 = d
          · subst hd
            refine ⟨by simp [fupd], fun a2 => ?_⟩
            simp only [fupd_same]
            exact hclear a2
          · have := h2 d2 (by simpa [fupd, hd] using hp)
            exact ⟨by simpa [fupd, hd] using this.1,
              fun a2 => by simpa [fupd, hd] using this.2 a2⟩
        · intro d2
          by_cases hd : d2 = d
          · subst hd
            refine ⟨[], List.nodup_nil, fun a2 => ?_, by simp [fupd]⟩
            simp only [fupd_same]
            rw [hclear a2]
            simp
          · obtain ⟨l, hnd, hiff, hlen⟩ := h3 d2
            exact ⟨l, hnd, fun a2 => by simpa [fupd, hd] using hiff a2,
              by simpa [fupd, hd] using hlen⟩
      · -- not yet at quorum: one more distinct approval recorded
        cases hE
        have hg : g ∈ s.guardians d := by simpa using g1
        refine ⟨?_, ?_, ?_⟩
        · intro d2 a2 hap
          by_cases hd : d2 = d
          · subst hd
            by_cases ha : a2 = g
            · subst ha
              exact hg
            · apply h1 d2 a2
              simpa [fupd, ha] using hap
          · exact h1 d2 a2 (by simpa [fupd, hd] using hap)
        · intro d2 hp
          by_cases hd : d2 = d
          · subst hd
            exact absurd hp g2
          · have := h2 d2 hp
            exact ⟨by simpa [fupd, hd] using this.1,
              fun a2 => by simpa [fupd, hd] using this.2 a2⟩
        · intro d2
          by_cases hd : d2 = d
          · subst hd
            obtain ⟨l, hnd, hiff, hlen⟩ := h3 d2
            have hgl : g ∉ l := fun hc => g3 ((hiff g).mpr hc)
            refine ⟨l ++ [g], ?_, fun a2 => ?_, ?_⟩
            · rw [List.nodup_append]
              refine ⟨hnd, List.nodup_singleton g, fun x hx hx1 => ?_⟩
              simp only [List.mem_singleton] at hx1
              subst hx1
              exact hgl hx
            · by_cases ha : a2 = g
              · subst ha
                simp [fupd]
              · simp only [List.mem_append, List.mem_singleton]
                have hred : (fupd s.recoveryApprovals d2
                    (fupd (s.recoveryApprovals d2) g true)) d2 a2 =
                    s.recoveryApprovals d2 a2 := by
                  simp [fupd, ha]
                rw [hred]
                constructor
                · intro hv
                  exact Or.inl ((hiff a2).mp hv)
                · intro hv
                  rcases hv with hv | hv
                  · exact (hiff a2).mpr hv
                  · exact absurd hv ha
            · simp only [fupd_same, List.length_append, List.length_singleton]
              omega
          · obtain ⟨l, hnd, hiff, hlen⟩ := h3 d2
            exact ⟨l, hnd, fun a2 => by simpa [fupd, hd] using hiff a2,
              by simpa [fupd, hd] using hlen⟩
    | pauseOp a =>
      unfold GIR.regExec GIR.pauseFn at hE
      dsimp only at hE
      split_ifs at hE
      cases hE
      exact ⟨h1, h2, h3⟩
    | unpauseOp a =>
      unfold GIR.regExec GIR.unpauseFn at hE
      dsimp only at hE
      split_ifs at hE
      cases hE
      exact ⟨h1, h2, h3⟩
    | grantRole a r x =>
      unfold GIR.regExec GIR.grantRoleFn at hE
      dsimp only at hE
      split_ifs at hE
      cases hE
      exact ⟨h1, h2, h3⟩
    | revokeRole a r x =>
      unfold GIR.regExec GIR.revokeRoleFn at hE
      dsimp only at hE
      split_ifs at hE
      cases hE
      exact ⟨h1, h2, h3⟩

theorem recovInv_run (dep : Addr) (ops : List GIR.RegOp) :
    RecovInv (GIR.regRun dep ops) := by
  unfold GIR.regRun
  have hall : ∀ (l : List GIR.RegOp) (s : GIR.RegState),
      RecovInv s → RecovInv (l.foldl GIR.regStep s) := by
    intro l
    induction l with
    | nil => exact fun s hs => hs
    | cons op rest ih => exact fun s hs => ih _ (recovInv_step s op hs)
  exact hall ops _ (recovInv_init dep)

/-- C1 amended: in every reachable state, the stored approval count of a
pending recovery equals the number of distinct guardians who approved it
(the initiator pre-counted), and a successful `approveRecovery` commits
the recovery — transferring ownership to the proposed owner and, in the
same operation, clearing the pending request, the count, and every
approval flag — exactly when the incremented count reaches
`⌊N/2⌋ + 1` for the CURRENT guardian count N; when the incremented count
is at most `⌊N/2⌋` the owner, the pending request and the approval flags
are untouched except for recording the one new approval.  (The original
claim's "with N−1 distinct approvals the owner never changes" fails: for
N = 3 the quorum is 2 = N−1; see the counterexample.) -/
theorem c1_amended_commit_exactly_at_current_quorum (dep : Addr)
    (ops : List GIR.RegOp) (g : Addr) (t : Nat) (d : B32)
    (s' : GIR.RegState)
    (hE : GIR.regExec (GIR.regRun dep ops) (.approveRecovery g t d) = .ok s') :
    (∃ l : List Addr, l.Nodup ∧
      (∀ a, (GIR.regRun dep ops).recoveryApprovals d a = true ↔ a ∈ l) ∧
      (GIR.regRun dep ops).recoveryApprovalCount d = l.length) ∧
    (if (GIR.regRun dep ops).recoveryApprovalCount d + 1 ≥
        ((GIR.regRun dep ops).guardians d).length / 2 + 1 then
      (s'.identities d).owner = (GIR.regRun dep ops).pendingRecoveryAddress d ∧
      s'.pendingRecoveryAddress d = 0 ∧
      s'.recoveryApprovalCount d = 0 ∧
      ∀ a, s'.recoveryApprovals d a = false
    else
      (s'.identities d).owner = ((GIR.regRun dep ops).identities d).owner ∧
      s'.pendingRecoveryAddress d = (GIR.regRun dep ops).pendingRecoveryAddress d ∧
      s'.recoveryApprovalCount d = (GIR.regRun dep ops).recoveryApprovalCount d + 1) := by
  have hInv := recovInv_run dep ops
  refine ⟨hInv.2.2 d, ?_⟩
  unfold GIR.regExec GIR.approveRecovery GIR.executeRecovery GIR.isGuardian at hE
  dsimp only at hE
  split_ifs at hE with g1 g2 g3 g4
  · cases hE
    rw [if_pos (by simpa [fupd] using g4)]
    refine ⟨by simp [fupd], by simp [fupd], by simp [fupd], ?_⟩
    intro a
    simp only [fupd_same]
    by_cases hmem : a ∈ (GIR.regRun dep ops).guardians d
    · simp [hmem]
    · rw [if_neg hmem]
      have hg : g ∈ (GIR.regRun dep ops).guardians d := by simpa using g1
      by_cases ha : a = g
      · subst ha
        exact absurd hg hmem
      · rw [fupd_other _ _ _ _ ha]
        by_cases hval : (GIR.regRun dep ops).recoveryApprovals d a = true
        · exact absurd (hInv.1 d a hval) hmem
        · simpa using hval
  · cases hE
    rw [if_neg (by simpa [fupd] using g4)]
    exact ⟨rfl, rfl, by simp [fupd]⟩

/-- C1 counterexample: with N = 3 guardians (11, 12, 13) on principal
1's identity, guardian 11 initiates recovery to principal 2 (1 distinct
approval) and guardian 12 approves (2 distinct approvals): ownership
transfers with only 2 = N−1 distinct approvals, because the quorum is
`⌊3/2⌋+1 = 2` — refuting "with only N−1 distinct approvals the
identity's owner never changes". -/
theorem c1_counterexample_two_of_three_commits :
    ((GIR.regRun 1 [.createIdentity 1 0 (B32.raw 1) "",
        .addGuardian 1 (B32.hashIdC (B32.raw 1) 1 0) 11,
        .addGuardian 1 (B32.hashIdC (B32.raw 1) 1 0) 12,
        .addGuardian 1 (B32.hashIdC (B32.raw 1) 1 0) 13,
        .initiateRecovery 11 (B32.hashIdC (B32.raw 1) 1 0) 2]).guardians
          (B32.hashIdC (B32.raw 1) 1 0)).length = 3 ∧
    (GIR.regRun 1 [.createIdentity 1 0 (B32.raw 1) "",
        .addGuardian 1 (B32.hashIdC (B32.raw 1) 1 0) 11,
        .addGuardian 1 (B32.hashIdC (B32.raw 1) 1 0) 12,
        .addGuardian 1 (B32.hashIdC (B32.raw 1) 1 0) 13,
        .initiateRecovery 11 (B32.hashIdC (B32.raw 1) 1 0) 2]).recoveryApprovalCount
          (B32.hashIdC (B32.raw 1) 1 0) = 1 ∧
    (GIR.regRun 1 [.createIdentity 1 0 (B32.raw 1) "",
        .addGuardian 1 (B32.hashIdC (B32.raw 1) 1 0) 11,
        .addGuardian 1 (B32.hashIdC (B32.raw 1) 1 0) 12,
        .addGuardian 1 (B32.hashIdC (B32.raw 1) 1 0) 13,
        .initiateRecovery 11 (B32.hashIdC (B32.raw 1) 1 0) 2]).recoveryApprovals
          (B32.hashIdC (B32.raw 1) 1 0) 12 = false ∧
    ((GIR.regRun 1 [.createIdentity 1 0 (B32.raw 1) "",
        .addGuardian 1 (B32.hashIdC (B32.raw 1) 1 0) 11,
        .addGuardian 1 (B32.hashIdC (B32.raw 1) 1 0) 12,
        .addGuardian 1 (B32.hashIdC (B32.raw 1) 1 0) 13,
        .initiateRecovery 11 (B32.hashIdC (B32.raw 1) 1 0) 2,
        .approveRecovery 12 5 (B32.hashIdC (B32.raw 1) 1 0)]).identities
          (B32.hashIdC (B32.raw 1) 1 0)).owner = 2 := by
  decide

/-- The invariant backing C10 (proved for traces whose transactions come
from nonzero addresses, as on the EVM): any identity with a nonzero
owner sits at a keccak-shaped DID, and any identity with a nonempty
guardian list has a nonzero owner. -/
def ShapeInv (s : GIR.RegState) : Prop :=
  (∀ d, (s.identities d).owner ≠ 0 → ∃ h a t, d = B32.hashIdC h a t) ∧
  (∀ d, s.guardians d ≠ [] → (s.identities d).owner ≠ 0)

theorem shapeInv_init (dep : Addr) : ShapeInv (GIR.regInit dep) := by
  constructor
  · intro d hd
    exact absurd rfl hd
  · intro d hd
    exact absurd rfl hd

theorem shapeInv_step (s : GIR.RegState) (op : GIR.RegOp)
    (hsend : GIR.RegOp.sender op ≠ 0) (hInv : ShapeInv s) :
    ShapeInv (GIR.regStep s op) := by
  obtain ⟨h1, h2⟩ := hInv
  cases hE : GIR.regExec s op with
  | error e =>
    rw [GIR.regStep_error hE]
    exact ⟨h1, h2⟩
  | ok s' =>
    rw [GIR.regStep_ok hE]
    cases op with
    | createIdentity a t hsh ip =>
      unfold GIR.regExec GIR.createIdentity at hE
      dsimp only at hE
      split_ifs at hE
      cases hE
      constructor
      · intro d hd
        by_cases hdd : d = B32.hashIdC hsh a t
        · exact ⟨hsh, a, t, hdd⟩
        · exact h1 d (by simpa [fupd, hdd] using hd)
      · intro d hd
        by_cases hdd : d = B32.hashIdC hsh a t
        · subst hdd
          simp only [fupd_same]
          simpa using hsend
        · have := h2 d hd
          simpa [fupd, hdd] using this
    | updateIdentity a t d ip =>
      unfold GIR.regExec GIR.updateIdentity at hE
      dsimp only at hE
      split_ifs at hE
      cases hE
      constructor
      · intro d2 hd
        by_cases hdd : d2 = d
        · subst hdd
          exact h1 d2 (by simpa [fupd] using hd)
        · exact h1 d2 (by simpa [fupd, hdd] using hd)
      · intro d2 hd
        by_cases hdd : d2 = d
        · subst hdd
          simpa [fupd] using h2 d2 hd
        · simpa [fupd, hdd] using h2 d2 hd
    | addVerification a t d v pr =>
      unfold GIR.regExec GIR.addVerification at hE
      dsimp only at hE
      split_ifs at hE
      all_goals cases hE
      all_goals constructor
      · intro d2 hd
        by_cases hdd : d2 = d
        · subst hdd
          exact h1 d2 (by simpa [fupd] using hd)
        · exact h1 d2 (by simpa [fupd, hdd] using hd)
      · intro d2 hd
        by_cases hdd : d2 = d
        · subst hdd
          simpa [fupd] using h2 d2 hd
        · simpa [fupd, hdd] using h2 d2 hd
      · exact fun d2 hd => h1 d2 hd
      · exact fun d2 hd => h2 d2 hd
    | revokeVerification a d i =>
      unfold GIR.regExec GIR.revokeVerification at hE
      dsimp only at hE
      split_ifs at hE
      cases hE
      exact ⟨h1, h2⟩
    | revokeIdentity a t d =>
      unfold GIR.regExec GIR.revokeIdentity at hE
      dsimp only at hE
      split_ifs at hE
      cases hE
      constructor
      · intro d2 hd
        by_cases hdd : d2 = d
        · subst hdd
          exact h1 d2 (by simpa [fupd] using hd)
        · exact h1 d2 (by simpa [fupd, hdd] using hd)
      · intro d2 hd
        by_cases hdd : d2 = d
        · subst hdd
          simpa [fupd] using h2 d2 hd
        · simpa [fupd, hdd] using h2 d2 hd
    | addGuardian a d g =>
      unfold GIR.regExec GIR.addGuardian at hE
      dsimp only at hE
      split_ifs at hE with g1 g2 g3
      cases hE
      constructor
      · exact h1
      · intro d2 hd
        by_cases hdd : d2 = d
        · subst hdd
          have hown : (s.identities d2).owner = a := by
            simpa using g1
          rw [hown]
          simpa using hsend
        · exact h2 d2 (by simpa [fupd, hdd] using hd)
    | initiateRecovery g d newOwner =>
      unfold GIR.regExec GIR.initiateRecovery GIR.isGuardian at hE
      dsimp only at hE
      split_ifs at hE
      cases hE
      exact ⟨h1, h2⟩
    | approveRecovery g t d =>
      unfold GIR.regExec GIR.approveRecovery GIR.executeRecovery GIR.isGuardian at hE
      dsimp only at hE
      split_ifs at hE with g1 g2 g3 g4
      · cases hE
        have hg : g ∈ s.guardians d := by simpa using g1
        have hgne : s.guardians d ≠ [] := by
          intro hc
          rw [hc] at hg
          cases hg
        have hone : (s.identities d).owner ≠ 0 := h2 d hgne
        constructor
        · intro d2 hd
          by_cases hdd : d2 = d
          · subst hdd
            exact h1 d2 hone
          · exact h1 d2 (by simpa [fupd, hdd] using hd)
        · intro d2 hd
          by_cases hdd : d2 = d
          · subst hdd
            simp only [fupd_same]
            simpa using g2
          · simpa [fupd, hdd] using h2 d2 hd
      · cases hE
        exact ⟨h1, h2⟩
    | pauseOp a =>
      unfold GIR.regExec GIR.pauseFn at hE
      dsimp only at hE
      split_ifs at hE
      cases hE
      exact ⟨h1, h2⟩
    | unpauseOp a =>
      unfold GIR.regExec GIR.unpauseFn at hE
      dsimp only at hE
      split_ifs at hE
      cases hE
      exact ⟨h1, h2⟩
    | grantRole a r x =>
      unfold GIR.regExec GIR.grantRoleFn at hE
      dsimp only at hE
      split_ifs at hE
      cases hE
      exact ⟨h1, h2⟩
    | revokeRole a r x =>
      unfold GIR.regExec GIR.revokeRoleFn at hE
      dsimp only at hE
      split_ifs at hE
      cases hE
      exact ⟨h1, h2⟩

theorem shapeInv_run (dep : Addr) (ops : List GIR.RegOp)
    (hwf : ∀ op ∈ ops, GIR.RegOp.sender op ≠ 0) :
    ShapeInv (GIR.regRun dep ops) := by
  unfold GIR.regRun
  have hall : ∀ (l : List GIR.RegOp), (∀ op ∈ l, GIR.RegOp.sender op ≠ 0) →
      ∀ (s : GIR.RegState), ShapeInv s → ShapeInv (l.foldl GIR.regStep s) := by
    intro l
    induction l with
    | nil => exact fun _ s hs => hs
    | cons op rest ih =>
      intro hl s hs
      exact ih (fun o ho => hl o (List.mem_cons_of_mem op ho)) _
        (shapeInv_step s op (hl op (List.mem_cons_self op rest)) hs)
  exact hall ops hwf _ (shapeInv_init dep)

/-- C10: in any reachable state (transactions from nonzero addresses)
where principal p holds a binding in `addressToIdentity`: (a) a
successful `revokeIdentity` leaves the whole `addressToIdentity` map
unchanged, so revocation does not clear p's binding; (b) any
`createIdentity` call by p (pause disengaged, fresh identity hash) fails
with `PrincipalAlreadyBound` even though p may own no active identity;
and (c) the only operation whose success takes p's binding from nonzero
to zero is an `approveRecovery` that commits a pending recovery of an
identity owned by p to a proposed owner different from p. -/
theorem c10_only_recovery_frees_binding (dep : Addr) (ops : List GIR.RegOp)
    (hwf : ∀ op ∈ ops, GIR.RegOp.sender op ≠ 0) (p : Addr)
    (hbind : (GIR.regRun dep ops).addressToIdentity p ≠ B32.zero) :
    (∀ sender t d s1,
      GIR.regExec (GIR.regRun dep ops) (.revokeIdentity sender t d) = .ok s1 →
      s1.addressToIdentity = (GIR.regRun dep ops).addressToIdentity) ∧
    (∀ t2 h2 ip, (GIR.regRun dep ops).paused = false →
      (GIR.regRun dep ops).identityHashExists h2 = false →
      GIR.regExec (GIR.regRun dep ops) (.createIdentity p t2 h2 ip) =
        .error .PrincipalAlreadyBound) ∧
    (∀ op s2, GIR.regExec (GIR.regRun dep ops) op = .ok s2 →
      s2.addressToIdentity p = B32.zero →
      ∃ g t3 d3, op = .approveRecovery g t3 d3 ∧
        ((GIR.regRun dep ops).identities d3).owner = p ∧
        (GIR.regRun dep ops).pendingRecoveryAddress d3 ≠ p ∧
        (GIR.regRun dep ops).pendingRecoveryAddress d3 ≠ 0) := by
  have hShape := shapeInv_run dep ops hwf
  refine ⟨?_, ?_, ?_⟩
  · intro sender t d s1 hE
    unfold GIR.regExec GIR.revokeIdentity at hE
    dsimp only at hE
    split_ifs at hE
    cases hE
    rfl
  · intro t2 h2 ip hpause hfresh
    unfold GIR.regExec GIR.createIdentity
    simp [hpause, hfresh, hbind]
  · intro op s2 hok h0
    cases op with
    | createIdentity a2 t2 h2 ip2 =>
      unfold GIR.regExec GIR.createIdentity at hok
      dsimp only at hok
      split_ifs at hok
      cases hok
      by_cases hp : p = a2
      · subst hp
        simp [fupd] at h0
      · simp [fupd, hp] at h0
        exact absurd h0 hbind
    | updateIdentity a2 t2 d2 ip2 =>
      unfold GIR.regExec GIR.updateIdentity at hok
      dsimp only at hok
      split_ifs at hok
      cases hok
      exact absurd h0 hbind
    | addVerification a2 t2 d2 v2 pr2 =>
      unfold GIR.regExec GIR.addVerification at hok
      dsimp only at hok
      split_ifs at hok
      all_goals cases hok
      all_goals exact absurd h0 hbind
    | revokeVerification a2 d2 i2 =>
      unfold GIR.regExec GIR.revokeVerification at hok
      dsimp only at hok
      split_ifs at hok
      cases hok
      exact absurd h0 hbind
    | revokeIdentity a2 t2 d2 =>
      unfold GIR.regExec GIR.revokeIdentity at hok
      dsimp only at hok
      split_ifs at hok
      cases hok
      exact absurd h0 hbind
    | addGuardian a2 d2 g2 =>
      unfold GIR.regExec GIR.addGuardian at hok
      dsimp only at hok
      split_ifs at hok
      cases hok
      exact absurd h0 hbind
    | initiateRecovery g2 d2 n2 =>
      unfold GIR.regExec GIR.initiateRecovery GIR.isGuardian at hok
      dsimp only at hok
      split_ifs at hok
      cases hok
      exact absurd h0 hbind
    | approveRecovery g3 t3 d3 =>
      unfold GIR.regExec GIR.approveRecovery GIR.executeRecovery GIR.isGuardian at hok
      dsimp only at hok
      split_ifs at hok with k1 k2 k3 k4
      · cases hok
        by_cases hpno : p = (GIR.regRun dep ops).pendingRecoveryAddress d3
        · exfalso
          have hg : g3 ∈ (GIR.regRun dep ops).guardians d3 := by simpa using k1
          have hgne : (GIR.regRun dep ops).guardians d3 ≠ [] := by
            intro hc
            rw [hc] at hg
            cases hg
          have hone := hShape.2 d3 hgne
          obtain ⟨hh, ha, ht, hdeq⟩ := hShape.1 d3 hone
          subst hpno
          simp [fupd] at h0
          rw [hdeq] at h0
          cases h0
        · by_cases hpoo : p = ((GIR.regRun dep ops).identities d3).owner
          · refine ⟨g3, t3, d3, rfl, hpoo.symm, ?_, by simpa using k2⟩
            exact fun hc => hpno hc.symm
          · exfalso
            simp [fupd, hpno, hpoo] at h0
            exact absurd h0 hbind
      · cases hok
        exact absurd h0 hbind
    | pauseOp a2 =>
      unfold GIR.regExec GIR.pauseFn at hok
      dsimp only at hok
      split_ifs at hok
      cases hok
      exact absurd h0 hbind
    | unpauseOp a2 =>
      unfold GIR.regExec GIR.unpauseFn at hok
      dsimp only at hok
      split_ifs at hok
      cases hok
      exact absurd h0 hbind
    | grantRole a2 r2 x2 =>
      unfold GIR.regExec GIR.grantRoleFn at hok
      dsimp only at hok
      split_ifs at hok
      cases hok
      exact absurd h0 hbind
    | revokeRole a2 r2 x2 =>
      unfold GIR.regExec GIR.revokeRoleFn at hok
      dsimp only at hok
      split_ifs at hok
      cases hok
      exact absurd h0 hbind

theorem c1_amended_witness :
    ((GIR.regStep (GIR.regRun 1 [.createIdentity 1 0 (B32.raw 1) "",
        .addGuardian 1 (B32.hashIdC (B32.raw 1) 1 0) 11,
        .addGuardian 1 (B32.hashIdC (B32.raw 1) 1 0) 12,
        .initiateRecovery 11 (B32.hashIdC (B32.raw 1) 1 0) 2])
        (.approveRecovery 12 5 (B32.hashIdC (B32.raw 1) 1 0))).identities
          (B32.hashIdC (B32.raw 1) 1 0)).owner =
      (GIR.regRun 1 [.createIdentity 1 0 (B32.raw 1) "",
        .addGuardian 1 (B32.hashIdC (B32.raw 1) 1 0) 11,
        .addGuardian 1 (B32.hashIdC (B32.raw 1) 1 0) 12,
        .initiateRecovery 11 (B32.hashIdC (B32.raw 1) 1 0) 2]).pendingRecoveryAddress
          (B32.hashIdC (B32.raw 1) 1 0) := by
  have h := c1_amended_commit_exactly_at_current_quorum 1
    [.createIdentity 1 0 (B32.raw 1) "",
      .addGuardian 1 (B32.hashIdC (B32.raw 1) 1 0) 11,
      .addGuardian 1 (B32.hashIdC (B32.raw 1) 1 0) 12,
      .initiateRecovery 11 (B32.hashIdC (B32.raw 1) 1 0) 2]
    12 5 (B32.hashIdC (B32.raw 1) 1 0)
    (GIR.regStep (GIR.regRun 1 [.createIdentity 1 0 (B32.raw 1) "",
        .addGuardian 1 (B32.hashIdC (B32.raw 1) 1 0) 11,
        .addGuardian 1 (B32.hashIdC (B32.raw 1) 1 0) 12,
        .initiateRecovery 11 (B32.hashIdC (B32.raw 1) 1 0) 2])
      (.approveRecovery 12 5 (B32.hashIdC (B32.raw 1) 1 0))) rfl
  have h2 := h.2
  rw [if_pos (by decide)] at h2
  exact h2.1

theorem c2_amended_witness :
    sysExec (setPausedS ⟨GIR.regInit 1, PVR.pInit 1⟩ true)
        (.reg (.createIdentity 5 0 (B32.raw 1) "")) = .error .SystemPaused ∧
    sysExec (setPausedS ⟨GIR.regInit 1, PVR.pInit 1⟩ true)
        (.reg (.revokeIdentity 5 7 (B32.raw 9))) =
      Except.map (fun s2 => setPausedS s2 true)
        (sysExec (setPausedS ⟨GIR.regInit 1, PVR.pInit 1⟩ false)
          (.reg (.revokeIdentity 5 7 (B32.raw 9)))) :=
  ⟨(c2_amended_pause_gates_only_three ⟨GIR.regInit 1, PVR.pInit 1⟩
      (.reg (.createIdentity 5 0 (B32.raw 1) ""))).1 rfl,
    (c2_amended_pause_gates_only_three ⟨GIR.regInit 1, PVR.pInit 1⟩
      (.reg (.revokeIdentity 5 7 (B32.raw 9)))).2.1 rfl true⟩

theorem c5_amended_witness :
    ((GIR.regStep (GIR.regRun 1 [.createIdentity 1 0 (B32.raw 1) ""])
        (.addGuardian 1 (B32.hashIdC (B32.raw 1) 1 0) 11)).guardians
          (B32.hashIdC (B32.raw 1) 1 0)).length =
      ((GIR.regRun 1 [.createIdentity 1 0 (B32.raw 1) ""]).guardians
          (B32.hashIdC (B32.raw 1) 1 0)).length + 1 :=
  (c5_amended_quorum_recomputed_per_approval
    (GIR.regRun 1 [.createIdentity 1 0 (B32.raw 1) ""])
    (GIR.regStep (GIR.regRun 1 [.createIdentity 1 0 (B32.raw 1) ""])
      (.addGuardian 1 (B32.hashIdC (B32.raw 1) 1 0) 11))
    1 (B32.hashIdC (B32.raw 1) 1 0) 11 rfl).1

theorem c8_witness :
    PVR.isVerificationValid
        (PVR.pRun 1 [.registerPlatform 1 0 "n" "dom" 0,
          .createVerification 1 0 (B32.raw 5) (B32.hashPlat "n" "dom" 0) "u" 1 (B32.raw 6)])
        100000 (B32.raw 5) (B32.hashPlat "n" "dom" 0) = false ∧
    PVR.createVerification
        (PVR.pRun 1 [.registerPlatform 1 0 "n" "dom" 0,
          .createVerification 1 0 (B32.raw 5) (B32.hashPlat "n" "dom" 0) "u" 1 (B32.raw 6)])
        1 100000 (B32.raw 5) (B32.hashPlat "n" "dom" 0) "u" 1 (B32.raw 6) =
      .error .VerificationAlreadyExists := by
  have h := c8_expired_slot_stays_occupied
    (PVR.pRun 1 [.registerPlatform 1 0 "n" "dom" 0,
      .createVerification 1 0 (B32.raw 5) (B32.hashPlat "n" "dom" 0) "u" 1 (B32.raw 6)])
    100000 (B32.raw 5) (B32.hashPlat "n" "dom" 0) "u" 1 (B32.raw 6) 1
    (by decide) (by decide) (by decide) (by decide) (Or.inl (by decide))
    (by decide) (by decide)
  exact ⟨h.1, h.2.1⟩

theorem c10_witness :
    GIR.regExec (GIR.regRun 1 [.createIdentity 5 0 (B32.raw 1) "",
        .revokeIdentity 5 7 (B32.hashIdC (B32.raw 1) 5 0)])
      (.createIdentity 5 9 (B32.raw 2) "") = .error .PrincipalAlreadyBound := by
  have h := c10_only_recovery_frees_binding 1
    [.createIdentity 5 0 (B32.raw 1) "",
      .revokeIdentity 5 7 (B32.hashIdC (B32.raw 1) 5 0)]
    (by
      intro op hop
      fin_cases hop <;> decide)
    5 (by decide)
  exact h.2.1 9 (B32.raw 2) "" (by decide) (by decide)
